import Mathlib

/-! # Plantower PMS7003 frame decoder

A shallow embedding of `Plantower_PMS7003.cpp`: the byte-at-a-time frame
synchroniser (`updateFrame`), the in-place word conversion
(`convertSensorData`), the checksum test (`isValidChecksum`), the field
accessors and the fixed command frames, followed by the properties proved
about them.

Conventions of the embedding
* an `unsigned char` is a `Nat` below 256, a `uint16_t` a `Nat` below 65536;
  every narrowing assignment of the source is an explicit `%`;
* the frame buffer `sensorData` is a C union of `bytes[32]`, `words[16]` and
  the field struct `values`; it is modelled by its byte view, the other two
  views being read and written through the byte order of the host;
* the serial stream the driver is bound to is passed explicitly: `rx` holds
  the bytes still to be read, `tx` the bytes written so far;
* the diagnostic output (`DDEBUGLN`) is not modelled.
-/

namespace PMS7003

/-- Modelled from the spec: the constant `PMS7003_DATA_SIZE` of the header that
is not among the sources; the frame is `FRAME_SIZE` = 32 bytes long. -/
def PMS7003_DATA_SIZE : Nat := 32

/-- Modelled from the spec: the two values of the tracked mode (`MODE_ACTIVE`,
`MODE_PASSIVE`), declared in the header that is not among the sources. -/
inductive Mode where
  | MODE_ACTIVE
  | MODE_PASSIVE
  deriving DecidableEq, Repr

/-- Byte order in which the host stores a `uint16_t`. -/
inductive Endian where
  | little
  | big
  deriving DecidableEq, Repr

/-- Byte view `sensorData.bytes` of the frame buffer union. -/
abbrev PMS7003_DATABUF := Nat → Nat

/-- The assignment `d.bytes[i] = v`. -/
def setByte (d : PMS7003_DATABUF) (i v : Nat) : PMS7003_DATABUF :=
  fun j => if j = i then v else d j

/-- Read of a `uint16_t` member of the union that starts at byte `off`. -/
def readU16 (e : Endian) (d : PMS7003_DATABUF) (off : Nat) : Nat :=
  match e with
  | Endian.little => d off + 256 * d (off + 1)
  | Endian.big => 256 * d off + d (off + 1)

/-- Write of the `uint16_t` value `v` to the member that starts at byte `off`. -/
def writeU16 (e : Endian) (d : PMS7003_DATABUF) (off v : Nat) : PMS7003_DATABUF :=
  match e with
  | Endian.little => setByte (setByte d off (v % 256)) (off + 1) (v / 256 % 256)
  | Endian.big => setByte (setByte d off (v / 256 % 256)) (off + 1) (v % 256)

/-- The element `sensorData.words[k]`. -/
def words (e : Endian) (d : PMS7003_DATABUF) (k : Nat) : Nat := readU16 e d (2 * k)

/-- The assignment `sensorData.words[k] = v`. -/
def setWords (e : Endian) (d : PMS7003_DATABUF) (k v : Nat) : PMS7003_DATABUF :=
  writeU16 e d (2 * k) v

/-- The serial stream: bytes waiting to be read, and bytes written so far. -/
structure SerialStream where
  rx : List Nat
  tx : List Nat

/-- The call `serial->write(command, sizeof(command))`. -/
def SerialStream.write (st : SerialStream) (command : List Nat) : SerialStream :=
  { st with tx := st.tx ++ command }

/-- Member variables of the class `Plantower_PMS7003`. -/
structure Plantower_PMS7003 where
  dataReady : Bool
  initialized : Bool
  debug : Bool
  nextByte : Nat
  lastByte : Nat
  bufferIndex : Nat
  sensorData : PMS7003_DATABUF
  _mode : Mode

namespace Plantower_PMS7003

/-- The constructor. It assigns `dataReady`, `initialized` and `debug`; the
other members keep whatever the memory `u` held.
Modelled from the spec: the tracked mode starts as ACTIVE (its initialiser is
in the header that is not among the sources). -/
def new (u : Plantower_PMS7003) : Plantower_PMS7003 :=
  { u with dataReady := false, initialized := false, debug := false,
           _mode := Mode.MODE_ACTIVE }

/-- Source: `Plantower_PMS7003::init`. -/
def init (s : Plantower_PMS7003) : Plantower_PMS7003 :=
  { s with dataReady := false, nextByte := 0, lastByte := 0, bufferIndex := 0,
           initialized := true }

/-- Source: `Plantower_PMS7003::uint16FromBufferData`. The offset is an `int`;
the result is narrowed to `uint16_t`. -/
def uint16FromBufferData (buff : PMS7003_DATABUF) (loc : Int) : Nat :=
  if loc > (PMS7003_DATA_SIZE : Int) - 2 ∨ loc < 2 then
    ((-1 : Int) % 65536).toNat
  else
    (buff loc.toNat * 256 + buff (loc.toNat + 1)) % 65536

/-- The `for` loop of `convertSensorData`: `n` further iterations from word
index `loc`. -/
def convertLoop (e : Endian) : Nat → Nat → PMS7003_DATABUF → Nat × PMS7003_DATABUF
  | 0, loc, d => (loc, d)
  | n + 1, loc, d =>
    convertLoop e n (loc + 1) (setWords e d loc (uint16FromBufferData d ((loc * 2 : Nat) : Int)))

/-- Source: `Plantower_PMS7003::convertSensorData`. -/
def convertSensorData (e : Endian) (s : Plantower_PMS7003) : Plantower_PMS7003 :=
  let loc := 0
  let loc := loc + 1
  let r := convertLoop e 13 loc s.sensorData
  let loc := r.1 + 1
  { s with sensorData := setWords e r.2 loc (uint16FromBufferData r.2 ((loc * 2 : Nat) : Int)) }

/-- The accumulation loop of `isValidChecksum` after `n` iterations; `sum` is a
`uint16_t`. -/
def checksumLoop (d : PMS7003_DATABUF) : Nat → Nat
  | 0 => 0
  | n + 1 => (checksumLoop d n + d n) % 65536

/-- Modelled from the spec: `values.checksum` is the last 16-bit word of the
frame, at bytes 30-31 (the struct is declared in the header that is not among
the sources). -/
def values_checksum (e : Endian) (d : PMS7003_DATABUF) : Nat := readU16 e d 30

/-- Source: `Plantower_PMS7003::isValidChecksum`. -/
def isValidChecksum (e : Endian) (s : Plantower_PMS7003) : Bool :=
  let sum := checksumLoop s.sensorData (PMS7003_DATA_SIZE - 2)
  if sum = values_checksum e s.sensorData then true else false

/-- The body of `if (serial->available())` in `updateFrame`, for the byte `b`
returned by `serial->read()`. -/
def storeByte (s : Plantower_PMS7003) (b : Nat) : Plantower_PMS7003 :=
  let s1 := { s with nextByte := b % 256 }
  let s2 :=
    if s1.nextByte = 0x4d ∧ s1.lastByte = 0x42 then
      { s1 with sensorData := setByte s1.sensorData 0 0x42, bufferIndex := 1 }
    else s1
  { s2 with sensorData := setByte s2.sensorData s2.bufferIndex s2.nextByte,
            bufferIndex := s2.bufferIndex + 1,
            lastByte := s2.nextByte }

/-- The block `if (bufferIndex == PMS7003_DATA_SIZE)` of `updateFrame`. -/
def checkFrame (e : Endian) (s : Plantower_PMS7003) : Plantower_PMS7003 :=
  if s.bufferIndex = PMS7003_DATA_SIZE then
    if s.sensorData 0 = 0x42 ∧ s.sensorData 1 = 0x4d then
      let s1 := convertSensorData e s
      let s2 := if isValidChecksum e s1 then { s1 with dataReady := true } else s1
      { s2 with bufferIndex := 0 }
    else
      { s with bufferIndex := 0 }
  else s

/-- Source: `Plantower_PMS7003::updateFrame`. -/
def updateFrame (e : Endian) (s : Plantower_PMS7003) (st : SerialStream) :
    Plantower_PMS7003 × SerialStream :=
  if s.initialized = false then (s, st)
  else
    let s0 := { s with dataReady := false }
    match st.rx with
    | [] => (checkFrame e s0, st)
    | b :: rest => (checkFrame e (storeByte s0 b), { st with rx := rest })

/-- Source: `Plantower_PMS7003::hasNewData`. -/
def hasNewData (s : Plantower_PMS7003) : Bool := s.dataReady

/-! ### The field struct `values`

The struct is declared in the header, which is not among the sources. The
positions of the 16-bit members are taken from the wire-format table of the
spec. The two one-byte members follow the comments of `convertSensorData` in
the source: the first word, then 13 words of 16 bits (bytes 2..27), then "the
word of 2 8-bit bytes" that the conversion skips (bytes 28-29), then the
checksum word. -/

/-- Modelled from the spec: the 16-bit member `values.pm_1_0` is at bytes 2-3. -/
def values_pm_1_0 (e : Endian) (d : PMS7003_DATABUF) : Nat := readU16 e d 2

/-- Modelled from the spec: the 16-bit member `values.pm_2_5` is at bytes 4-5. -/
def values_pm_2_5 (e : Endian) (d : PMS7003_DATABUF) : Nat := readU16 e d 4

/-- Modelled from the spec: the 16-bit member `values.pm_10_0` is at bytes 6-7. -/
def values_pm_10_0 (e : Endian) (d : PMS7003_DATABUF) : Nat := readU16 e d 6

/-- Modelled from the spec: the 16-bit member `values.pm_1_0_atmos` is at bytes 8-9. -/
def values_pm_1_0_atmos (e : Endian) (d : PMS7003_DATABUF) : Nat := readU16 e d 8

/-- Modelled from the spec: the 16-bit member `values.pm_2_5_atmos` is at bytes 10-11. -/
def values_pm_2_5_atmos (e : Endian) (d : PMS7003_DATABUF) : Nat := readU16 e d 10

/-- Modelled from the spec: the 16-bit member `values.pm_10_0_atmos` is at bytes 12-13. -/
def values_pm_10_0_atmos (e : Endian) (d : PMS7003_DATABUF) : Nat := readU16 e d 12

/-- Modelled from the spec: the 16-bit member `values.raw_gt_0_3` is at bytes 14-15. -/
def values_raw_gt_0_3 (e : Endian) (d : PMS7003_DATABUF) : Nat := readU16 e d 14

/-- Modelled from the spec: the 16-bit member `values.raw_gt_0_5` is at bytes 16-17. -/
def values_raw_gt_0_5 (e : Endian) (d : PMS7003_DATABUF) : Nat := readU16 e d 16

/-- Modelled from the spec: the 16-bit member `values.raw_gt_1_0` is at bytes 18-19. -/
def values_raw_gt_1_0 (e : Endian) (d : PMS7003_DATABUF) : Nat := readU16 e d 18

/-- Modelled from the spec: the 16-bit member `values.raw_gt_2_5` is at bytes 20-21. -/
def values_raw_gt_2_5 (e : Endian) (d : PMS7003_DATABUF) : Nat := readU16 e d 20

/-- Modelled from the spec: the 16-bit member `values.raw_gt_5_0` is at bytes 22-23. -/
def values_raw_gt_5_0 (e : Endian) (d : PMS7003_DATABUF) : Nat := readU16 e d 22

/-- Modelled from the spec: the 16-bit member `values.raw_gt_10_0` is at bytes 24-25. -/
def values_raw_gt_10_0 (e : Endian) (d : PMS7003_DATABUF) : Nat := readU16 e d 24

/-- The one-byte member `values.version_number`: the first byte of the word of two 8-bit bytes
that, by the comments of `convertSensorData`, follows the 13 converted words: byte 28. -/
def values_version_number (d : PMS7003_DATABUF) : Nat := d 28

/-- The one-byte member `values.error_code`: the second byte of the word of two 8-bit bytes
that, by the comments of `convertSensorData`, follows the 13 converted words: byte 29. -/
def values_error_code (d : PMS7003_DATABUF) : Nat := d 29

/-! ### Accessors -/

/-- Source: `Plantower_PMS7003::getPM_1_0`. -/
def getPM_1_0 (e : Endian) (s : Plantower_PMS7003) : Nat := values_pm_1_0 e s.sensorData

/-- Source: `Plantower_PMS7003::getPM_2_5`. -/
def getPM_2_5 (e : Endian) (s : Plantower_PMS7003) : Nat := values_pm_2_5 e s.sensorData

/-- Source: `Plantower_PMS7003::getPM_10_0`. -/
def getPM_10_0 (e : Endian) (s : Plantower_PMS7003) : Nat := values_pm_10_0 e s.sensorData

/-- Source: `Plantower_PMS7003::getPM_1_0_atmos`. -/
def getPM_1_0_atmos (e : Endian) (s : Plantower_PMS7003) : Nat := values_pm_1_0_atmos e s.sensorData

/-- Source: `Plantower_PMS7003::getPM_2_5_atmos`. -/
def getPM_2_5_atmos (e : Endian) (s : Plantower_PMS7003) : Nat := values_pm_2_5_atmos e s.sensorData

/-- Source: `Plantower_PMS7003::getPM_10_0_atmos`. -/
def getPM_10_0_atmos (e : Endian) (s : Plantower_PMS7003) : Nat := values_pm_10_0_atmos e s.sensorData

/-- Source: `Plantower_PMS7003::getRawGreaterThan_0_3`. -/
def getRawGreaterThan_0_3 (e : Endian) (s : Plantower_PMS7003) : Nat := values_raw_gt_0_3 e s.sensorData

/-- Source: `Plantower_PMS7003::getRawGreaterThan_0_5`. -/
def getRawGreaterThan_0_5 (e : Endian) (s : Plantower_PMS7003) : Nat := values_raw_gt_0_5 e s.sensorData

/-- Source: `Plantower_PMS7003::getRawGreaterThan_1_0`. -/
def getRawGreaterThan_1_0 (e : Endian) (s : Plantower_PMS7003) : Nat := values_raw_gt_1_0 e s.sensorData

/-- Source: `Plantower_PMS7003::getRawGreaterThan_2_5`. -/
def getRawGreaterThan_2_5 (e : Endian) (s : Plantower_PMS7003) : Nat := values_raw_gt_2_5 e s.sensorData

/-- Source: `Plantower_PMS7003::getRawGreaterThan_5_0`. -/
def getRawGreaterThan_5_0 (e : Endian) (s : Plantower_PMS7003) : Nat := values_raw_gt_5_0 e s.sensorData

/-- Source: `Plantower_PMS7003::getRawGreaterThan_10_0`. -/
def getRawGreaterThan_10_0 (e : Endian) (s : Plantower_PMS7003) : Nat := values_raw_gt_10_0 e s.sensorData

/-- Source: `Plantower_PMS7003::getHWVersion`. -/
def getHWVersion (s : Plantower_PMS7003) : Nat := values_version_number s.sensorData

/-- Source: `Plantower_PMS7003::getErrorCode`. -/
def getErrorCode (s : Plantower_PMS7003) : Nat := values_error_code s.sensorData

/-- The twelve 16-bit accessors, in the order of the source. -/
def accessors16 (e : Endian) (s : Plantower_PMS7003) : List Nat :=
  [getPM_1_0 e s, getPM_2_5 e s, getPM_10_0 e s,
   getPM_1_0_atmos e s, getPM_2_5_atmos e s, getPM_10_0_atmos e s,
   getRawGreaterThan_0_3 e s, getRawGreaterThan_0_5 e s, getRawGreaterThan_1_0 e s,
   getRawGreaterThan_2_5 e s, getRawGreaterThan_5_0 e s, getRawGreaterThan_10_0 e s]

/-- All fourteen field accessors, in the order of the source. -/
def accessors (e : Endian) (s : Plantower_PMS7003) : List Nat :=
  accessors16 e s ++ [getHWVersion s, getErrorCode s]

/-! ### Commands -/

/-- Source: `Plantower_PMS7003::sleep`. -/
def sleep (s : Plantower_PMS7003) (st : SerialStream) : Plantower_PMS7003 × SerialStream :=
  (s, st.write [0x42, 0x4D, 0xE4, 0x00, 0x00, 0x01, 0x73])

/-- Source: `Plantower_PMS7003::wakeUp`. -/
def wakeUp (s : Plantower_PMS7003) (st : SerialStream) : Plantower_PMS7003 × SerialStream :=
  (s, st.write [0x42, 0x4D, 0xE4, 0x00, 0x01, 0x01, 0x74])

/-- Source: `Plantower_PMS7003::activeMode`. -/
def activeMode (s : Plantower_PMS7003) (st : SerialStream) : Plantower_PMS7003 × SerialStream :=
  ({ s with _mode := Mode.MODE_ACTIVE }, st.write [0x42, 0x4D, 0xE1, 0x00, 0x01, 0x01, 0x71])

/-- Source: `Plantower_PMS7003::passiveMode`. -/
def passiveMode (s : Plantower_PMS7003) (st : SerialStream) : Plantower_PMS7003 × SerialStream :=
  ({ s with _mode := Mode.MODE_PASSIVE }, st.write [0x42, 0x4D, 0xE1, 0x00, 0x00, 0x01, 0x70])

/-- Source: `Plantower_PMS7003::requestRead`. -/
def requestRead (s : Plantower_PMS7003) (st : SerialStream) : Plantower_PMS7003 × SerialStream :=
  if s._mode = Mode.MODE_PASSIVE then
    (s, st.write [0x42, 0x4D, 0xE2, 0x00, 0x00, 0x01, 0x71])
  else (s, st)

/-! ### Driving the decoder -/

/-- The driver and its stream after `n` successive calls of `updateFrame`. -/
def run (e : Endian) : Nat → Plantower_PMS7003 × SerialStream → Plantower_PMS7003 × SerialStream
  | 0, c => c
  | n + 1, c => updateFrame e (run e n c).1 (run e n c).2

/-- States a caller can bring about: construction, then any sequence of the
public operations, each on any stream. -/
inductive Reachable (e : Endian) : Plantower_PMS7003 → Prop where
  | new (u : Plantower_PMS7003) : Reachable e (new u)
  | init {s : Plantower_PMS7003} : Reachable e s → Reachable e (init s)
  | updateFrame {s : Plantower_PMS7003} (st : SerialStream) :
      Reachable e s → Reachable e (updateFrame e s st).1
  | sleep {s : Plantower_PMS7003} (st : SerialStream) : Reachable e s → Reachable e (sleep s st).1
  | wakeUp {s : Plantower_PMS7003} (st : SerialStream) :
      Reachable e s → Reachable e (wakeUp s st).1
  | activeMode {s : Plantower_PMS7003} (st : SerialStream) :
      Reachable e s → Reachable e (activeMode s st).1
  | passiveMode {s : Plantower_PMS7003} (st : SerialStream) :
      Reachable e s → Reachable e (passiveMode s st).1
  | requestRead {s : Plantower_PMS7003} (st : SerialStream) :
      Reachable e s → Reachable e (requestRead s st).1

end Plantower_PMS7003

/-! ### Frames as the wire format of the spec describes them -/

/-- The byte of frame `F` at offset `i`. -/
def byteAt (F : List Nat) (i : Nat) : Nat := F.getD i 0

/-- The big-endian 16-bit value a frame encodes at offset `o`. -/
def fieldAt (F : List Nat) (o : Nat) : Nat := 256 * byteAt F o + byteAt F (o + 1)

/-- The twelve measurement fields a frame encodes, at offsets 2, 4, ..., 24. -/
def encodedFields (F : List Nat) : List Nat :=
  [fieldAt F 2, fieldAt F 4, fieldAt F 6, fieldAt F 8, fieldAt F 10, fieldAt F 12,
   fieldAt F 14, fieldAt F 16, fieldAt F 18, fieldAt F 20, fieldAt F 22, fieldAt F 24]

/-- A frame on the wire: 32 bytes that start with the marker 0x42 0x4D. -/
def MarkedFrame (F : List Nat) : Prop :=
  F.length = 32 ∧ (∀ b ∈ F, b < 256) ∧ byteAt F 0 = 0x42 ∧ byteAt F 1 = 0x4D

/-- The checksum invariant of the wire format: bytes 30-31 hold, big-endian,
the sum of bytes 0..29 with 16-bit wraparound. -/
def ChecksumOk (F : List Nat) : Prop :=
  (F.take 30).sum % 65536 = fieldAt F 30

/-- A checksum-valid frame. -/
def ValidFrame (F : List Nat) : Prop := MarkedFrame F ∧ ChecksumOk F

/-- No 0x42 immediately followed by 0x4D at any offset from 2 on. -/
def NoInnerMarker (F : List Nat) : Prop :=
  ∀ i < 31, 2 ≤ i → ¬ (byteAt F i = 0x42 ∧ byteAt F (i + 1) = 0x4D)

instance (F : List Nat) : Decidable (MarkedFrame F) := by
  unfold MarkedFrame; infer_instance

instance (F : List Nat) : Decidable (ChecksumOk F) := by
  unfold ChecksumOk; infer_instance

instance (F : List Nat) : Decidable (ValidFrame F) := by
  unfold ValidFrame; infer_instance

instance (F : List Nat) : Decidable (NoInnerMarker F) := by
  unfold NoInnerMarker; infer_instance

/-- The checksum invariant stated on a frame buffer. -/
def BufChecksumOk (d : PMS7003_DATABUF) : Prop :=
  ((List.range 30).map d).sum % 65536 = 256 * d 30 + d 31

/-- Every cell of the 32-byte buffer holds a byte. -/
def BufBytes (d : PMS7003_DATABUF) : Prop := ∀ i < 32, d i < 256

/-! ### Notions used in the proofs -/

open Plantower_PMS7003

/-- The byte at position `j` once the word holding it has been rewritten by the conversion. -/
def convByte (e : Endian) (d : PMS7003_DATABUF) (j : Nat) : Nat :=
  let v := (d (2 * (j / 2)) * 256 + d (2 * (j / 2) + 1)) % 65536
  match e with
  | Endian.little => if j % 2 = 0 then v % 256 else v / 256 % 256
  | Endian.big => if j % 2 = 0 then v / 256 % 256 else v % 256

/-- The first `k` bytes of frame `F` have been buffered and nothing is flagged. -/
def Buffered (F : List Nat) (k : Nat) (s : Plantower_PMS7003) : Prop :=
  s.initialized = true ∧ s.dataReady = false ∧ s.bufferIndex = k ∧
  s.lastByte = byteAt F (k - 1) ∧ ∀ i < k, s.sensorData i = byteAt F i

/-- The buffer holds frame `F` as `convertSensorData` leaves it, the cursor is back at 0 and the
ready flag tells whether the checksum of `F` held. -/
def Decoded (e : Endian) (F : List Nat) (s : Plantower_PMS7003) : Prop :=
  s.initialized = true ∧ s.bufferIndex = 0 ∧ s.lastByte = byteAt F 31 ∧
  (s.dataReady = true ↔ ChecksumOk F) ∧
  ∀ i < 32, s.sensorData i =
    if (2 ≤ i ∧ i < 28) ∨ (30 ≤ i ∧ i < 32) then convByte e (byteAt F) i else byteAt F i

/-- The state whose buffer holds the bytes of `F`. -/
def withFrame (s : Plantower_PMS7003) (F : List Nat) : Plantower_PMS7003 :=
  { s with sensorData := byteAt F }

/-- What every reachable state satisfies: the ready flag is never up on a driver that is not
initialised, and the cursor of an initialised driver is inside the buffer. -/
def Inv (s : Plantower_PMS7003) : Prop :=
  (s.initialized = false → s.dataReady = false) ∧
  (s.initialized = true → s.bufferIndex < PMS7003_DATA_SIZE)

/-! ### Concrete inputs -/

/-- The frame of the spec's concrete scenario: marker, the words 1..13, two zero bytes, and the
checksum 0x00EA of the thirty bytes before it. -/
def specFrame : List Nat :=
  [0x42, 0x4D, 0, 1, 0, 2, 0, 3, 0, 4, 0, 5, 0, 6, 0, 7, 0, 8, 0, 9, 0, 10, 0, 11, 0, 12,
   0, 13, 0, 0, 0x00, 0xEA]

/-- A second checksum-valid frame, with other measurements. -/
def otherFrame : List Nat :=
  [0x42, 0x4D, 0, 21, 0, 22, 0, 23, 0, 24, 0, 25, 0, 26, 1, 7, 1, 8, 1, 9, 0, 10, 0, 11, 0, 12,
   0, 13, 0, 0, 0x01, 0x65]

/-- A checksum-valid frame whose count of particles above 0.3 um is 0x424D = 16973, so that its
bytes 14-15 repeat the start marker. -/
def innerMarkerFrame : List Nat :=
  [0x42, 0x4D, 0, 1, 0, 2, 0, 3, 0, 4, 0, 5, 0, 6, 0x42, 0x4D, 0, 8, 0, 9, 0, 10, 0, 11, 0, 12,
   0, 13, 0, 0, 0x01, 0x72]

/-- A frame that starts with the marker and fails the checksum: `otherFrame` with its last byte
changed. -/
def badChecksumFrame : List Nat :=
  [0x42, 0x4D, 0, 21, 0, 22, 0, 23, 0, 24, 0, 25, 0, 26, 1, 7, 1, 8, 1, 9, 0, 10, 0, 11, 0, 12,
   0, 13, 0, 0, 0x01, 0x66]

/-- A memory image for a driver object before its constructor has run. -/
def blank : Plantower_PMS7003 :=
  { dataReady := true, initialized := true, debug := true, nextByte := 7, lastByte := 0x42,
    bufferIndex := 40, sensorData := fun _ => 0, _mode := Mode.MODE_PASSIVE }

instance (d : PMS7003_DATABUF) : Decidable (BufBytes d) := by
  unfold BufBytes; infer_instance

instance (d : PMS7003_DATABUF) : Decidable (BufChecksumOk d) := by
  unfold BufChecksumOk; infer_instance

/-! ### The bytes read since `init()`, write positions, command frames -/

/-- The index of the write `sensorData.bytes[bufferIndex] = nextByte` of `updateFrame`, for
the byte `b` returned by `serial->read()`: 1 after a marker completion, else the cursor. -/
def storeIndex (s : Plantower_PMS7003) (b : Nat) : Nat :=
  if b % 256 = 0x4d ∧ s.lastByte = 0x42 then 1 else s.bufferIndex

/-- `ReadSinceInit e s h`: the state `s` is reached by a call of `init()` followed by any
sequence of public operations other than `init()`, in which the calls of `updateFrame()` have
read the bytes `h`, oldest first. -/
inductive ReadSinceInit (e : Endian) : Plantower_PMS7003 → List Nat → Prop where
  | init (s : Plantower_PMS7003) : ReadSinceInit e (init s) []
  | idle {s : Plantower_PMS7003} {h : List Nat} (st : SerialStream) :
      ReadSinceInit e s h → st.rx = [] → ReadSinceInit e (updateFrame e s st).1 h
  | read {s : Plantower_PMS7003} {h : List Nat} (st : SerialStream) (b : Nat) (r : List Nat) :
      ReadSinceInit e s h → st.rx = b :: r → b < 256 →
      ReadSinceInit e (updateFrame e s st).1 (h ++ [b])
  | sleep {s : Plantower_PMS7003} {h : List Nat} (st : SerialStream) :
      ReadSinceInit e s h → ReadSinceInit e (sleep s st).1 h
  | wakeUp {s : Plantower_PMS7003} {h : List Nat} (st : SerialStream) :
      ReadSinceInit e s h → ReadSinceInit e (wakeUp s st).1 h
  | activeMode {s : Plantower_PMS7003} {h : List Nat} (st : SerialStream) :
      ReadSinceInit e s h → ReadSinceInit e (activeMode s st).1 h
  | passiveMode {s : Plantower_PMS7003} {h : List Nat} (st : SerialStream) :
      ReadSinceInit e s h → ReadSinceInit e (passiveMode s st).1 h
  | requestRead {s : Plantower_PMS7003} {h : List Nat} (st : SerialStream) :
      ReadSinceInit e s h → ReadSinceInit e (requestRead s st).1 h

/-- The buffer below the cursor holds the most recently read bytes: with `c` the cursor, cell
`i < c` holds the byte read `c - i` reads ago; the last byte is the newest one. -/
def Tracks (s : Plantower_PMS7003) (h : List Nat) : Prop :=
  s.initialized = true ∧ (∀ b ∈ h, b < 256) ∧ s.bufferIndex ≤ h.length ∧
  s.lastByte = h.getLast?.getD 0 ∧
  ∀ i < s.bufferIndex, s.sensorData i = h.getD (h.length - s.bufferIndex + i) 0

/-- A command frame that is consistent under the checksum rule of the sensor: seven bytes, the
marker first, and the last two bytes the big-endian sum of the first five. -/
def WellFormedCommand (cmd : List Nat) : Prop :=
  cmd.length = 7 ∧ cmd.take 2 = [0x42, 0x4D] ∧
  256 * cmd.getD 5 0 + cmd.getD 6 0 = (cmd.take 5).sum

instance (cmd : List Nat) : Decidable (WellFormedCommand cmd) := by
  unfold WellFormedCommand; infer_instance

/-! ### Further concrete inputs -/

/-- A marker-led frame whose checksum word is 0x1E00 = 7680, more than thirty bytes can sum
to. -/
def bigChecksumFrame : List Nat :=
  [0x42, 0x4D, 0, 1, 0, 2, 0, 3, 0, 4, 0, 5, 0, 6, 0, 7, 0, 8, 0, 9, 0, 10, 0, 11, 0, 12,
   0, 13, 0, 0, 0x1E, 0x00]

/-- An initialised driver caught in the middle of a frame: cursor at 17, last byte 0x42. -/
def midFrame : Plantower_PMS7003 :=
  { dataReady := false, initialized := true, debug := false, nextByte := 0x42,
    lastByte := 0x42, bufferIndex := 17, sensorData := fun i => i, _mode := Mode.MODE_PASSIVE }

/-- A checksum-valid frame whose bytes 26..29 are 0x00, 0x1C, 0x97, 0x05, all different. -/
def versionFrame : List Nat :=
  [0x42, 0x4D, 0, 1, 0, 2, 0, 3, 0, 4, 0, 5, 0, 6, 0, 7, 0, 8, 0, 9, 0, 10, 0, 11, 0, 12,
   0x00, 0x1C, 0x97, 0x05, 0x01, 0x95]

/-! ## Lemmas -/

/-! ### Conversion of the buffer -/

theorem uint16FromBufferData_in_range (d : PMS7003_DATABUF) (k : Nat) (h1 : 1 ≤ k) (h2 : k ≤ 15) :
    uint16FromBufferData d ((k * 2 : Nat) : Int) = (d (k * 2) * 256 + d (k * 2 + 1)) % 65536 := by
  unfold uint16FromBufferData PMS7003_DATA_SIZE
  rw [if_neg (by push_cast; omega)]
  simp only [Int.toNat_ofNat]

theorem setWords_apply (e : Endian) (d : PMS7003_DATABUF) (k j : Nat) (h1 : 1 ≤ k) (h2 : k ≤ 15) :
    setWords e d k (uint16FromBufferData d ((k * 2 : Nat) : Int)) j =
      if 2 * k ≤ j ∧ j < 2 * (k + 1) then convByte e d j else d j := by
  rw [uint16FromBufferData_in_range d k h1 h2, Nat.mul_comm k 2]
  by_cases hj : 2 * k ≤ j ∧ j < 2 * (k + 1)
  · rw [if_pos hj]
    rcases Nat.mod_two_eq_zero_or_one j with hm | hm
    · have hj2 : j = 2 * k := by omega
      subst hj2
      have hk : 2 * k / 2 = k := by omega
      cases e <;> simp [setWords, writeU16, setByte, convByte, hk]
    · have hj2 : j = 2 * k + 1 := by omega
      subst hj2
      have hk : (2 * k + 1) / 2 = k := by omega
      cases e <;> simp [setWords, writeU16, setByte, convByte, hk, hm]
  · rw [if_neg hj]
    have a1 : ¬ j = 2 * k := by omega
    have a2 : ¬ j = 2 * k + 1 := by omega
    cases e <;> simp [setWords, writeU16, setByte, a1, a2]

theorem convByte_congr (e : Endian) (d d1 : PMS7003_DATABUF) (j : Nat)
    (h : ∀ i, i / 2 = j / 2 → d1 i = d i) : convByte e d1 j = convByte e d j := by
  unfold convByte
  rw [h (2 * (j / 2)) (by omega), h (2 * (j / 2) + 1) (by omega)]

theorem convertLoop_spec (e : Endian) (n : Nat) :
    ∀ (loc : Nat) (d : PMS7003_DATABUF), 1 ≤ loc → loc + n ≤ 16 →
      (convertLoop e n loc d).1 = loc + n ∧
      ∀ j, (convertLoop e n loc d).2 j =
        if 2 * loc ≤ j ∧ j < 2 * (loc + n) then convByte e d j else d j := by
  induction n with
  | zero =>
    intro loc d _ _
    refine ⟨rfl, fun j => ?_⟩
    rw [if_neg (by omega)]
    rfl
  | succ n ih =>
    intro loc d h1 h2
    obtain ⟨ih1, ih2⟩ := ih (loc + 1)
      (setWords e d loc (uint16FromBufferData d ((loc * 2 : Nat) : Int))) (by omega) (by omega)
    refine ⟨by rw [convertLoop, ih1]; omega, fun j => ?_⟩
    rw [convertLoop, ih2 j]
    by_cases hj : 2 * (loc + 1) ≤ j ∧ j < 2 * (loc + 1 + n)
    · rw [if_pos hj, if_pos (by omega)]
      apply convByte_congr
      intro i hi
      rw [setWords_apply e d loc i h1 (by omega), if_neg (by omega)]
    · rw [if_neg hj, setWords_apply e d loc j h1 (by omega)]
      by_cases hj2 : 2 * loc ≤ j ∧ j < 2 * (loc + 1)
      · rw [if_pos hj2, if_pos (by omega)]
      · rw [if_neg hj2, if_neg (by omega)]

theorem convertSensorData_apply (e : Endian) (s : Plantower_PMS7003) (j : Nat) :
    (convertSensorData e s).sensorData j =
      if (2 ≤ j ∧ j < 28) ∨ (30 ≤ j ∧ j < 32) then convByte e s.sensorData j
      else s.sensorData j := by
  obtain ⟨h1, h2⟩ := convertLoop_spec e 13 1 s.sensorData (by omega) (by omega)
  simp only [convertSensorData, h1]
  rw [setWords_apply e _ 15 j (by omega) (by omega)]
  by_cases hj : 30 ≤ j ∧ j < 32
  · rw [if_pos (by omega), if_pos (Or.inr hj)]
    apply convByte_congr
    intro i hi
    rw [h2 i, if_neg (by omega)]
  · rw [if_neg (by omega), h2 j]
    by_cases hj2 : 2 ≤ j ∧ j < 28
    · rw [if_pos (by omega), if_pos (Or.inl hj2)]
    · rw [if_neg (by omega), if_neg (by tauto)]

theorem convByte_pair (e : Endian) (d : PMS7003_DATABUF) (k : Nat)
    (b0 : d (2 * k) < 256) (b1 : d (2 * k + 1) < 256) :
    readU16 e (fun j => convByte e d j) (2 * k) = 256 * d (2 * k) + d (2 * k + 1) ∧
    convByte e d (2 * k) + convByte e d (2 * k + 1) = d (2 * k) + d (2 * k + 1) := by
  have d0 : 2 * k / 2 = k := by omega
  have d1 : (2 * k + 1) / 2 = k := by omega
  have m0 : 2 * k % 2 = 0 := by omega
  have m1 : (2 * k + 1) % 2 = 1 := by omega
  cases e <;> simp only [readU16, convByte, d0, d1, m0, m1] <;> simp <;> omega

theorem readU16_convertSensorData (e : Endian) (s : Plantower_PMS7003)
    (h : BufBytes s.sensorData) (k : Nat) (hk : (1 ≤ k ∧ k ≤ 13) ∨ k = 15) :
    readU16 e (convertSensorData e s).sensorData (2 * k) =
      256 * s.sensorData (2 * k) + s.sensorData (2 * k + 1) := by
  have c0 : (convertSensorData e s).sensorData (2 * k) = convByte e s.sensorData (2 * k) := by
    rw [convertSensorData_apply, if_pos (by omega)]
  have c1 : (convertSensorData e s).sensorData (2 * k + 1) =
      convByte e s.sensorData (2 * k + 1) := by
    rw [convertSensorData_apply, if_pos (by omega)]
  rw [← (convByte_pair e s.sensorData k (h _ (by omega)) (h _ (by omega))).1]
  cases e <;> simp only [readU16, c0, c1]

theorem pair_convertSensorData (e : Endian) (s : Plantower_PMS7003)
    (h : BufBytes s.sensorData) (k : Nat) (hk : k < 16) :
    (convertSensorData e s).sensorData (2 * k) + (convertSensorData e s).sensorData (2 * k + 1) =
      s.sensorData (2 * k) + s.sensorData (2 * k + 1) := by
  by_cases hc : (1 ≤ k ∧ k ≤ 13) ∨ k = 15
  · rw [convertSensorData_apply, if_pos (by omega), convertSensorData_apply, if_pos (by omega)]
    exact (convByte_pair e s.sensorData k (h _ (by omega)) (h _ (by omega))).2
  · rw [convertSensorData_apply, if_neg (by omega), convertSensorData_apply, if_neg (by omega)]

theorem checksumLoop_eq (d : PMS7003_DATABUF) (n : Nat) :
    checksumLoop d n = ((List.range n).map d).sum % 65536 := by
  induction n with
  | zero => rfl
  | succ n ih =>
    rw [checksumLoop, ih, List.range_succ, List.map_append, List.sum_append]
    simp [Nat.add_mod]

theorem sum_range_30 (d : PMS7003_DATABUF) :
    ((List.range 30).map d).sum =
      (d (2 * 0) + d (2 * 0 + 1)) + (d (2 * 1) + d (2 * 1 + 1)) + (d (2 * 2) + d (2 * 2 + 1)) +
      (d (2 * 3) + d (2 * 3 + 1)) + (d (2 * 4) + d (2 * 4 + 1)) + (d (2 * 5) + d (2 * 5 + 1)) +
      (d (2 * 6) + d (2 * 6 + 1)) + (d (2 * 7) + d (2 * 7 + 1)) + (d (2 * 8) + d (2 * 8 + 1)) +
      (d (2 * 9) + d (2 * 9 + 1)) + (d (2 * 10) + d (2 * 10 + 1)) + (d (2 * 11) + d (2 * 11 + 1)) +
      (d (2 * 12) + d (2 * 12 + 1)) + (d (2 * 13) + d (2 * 13 + 1)) +
      (d (2 * 14) + d (2 * 14 + 1)) := by
  simp [List.range_succ]
  omega

theorem sum_convertSensorData (e : Endian) (s : Plantower_PMS7003) (h : BufBytes s.sensorData) :
    ((List.range 30).map (convertSensorData e s).sensorData).sum =
      ((List.range 30).map s.sensorData).sum := by
  rw [sum_range_30, sum_range_30]
  simp only [pair_convertSensorData e s h _ (by omega : (0:Nat) < 16),
    pair_convertSensorData e s h 1 (by omega), pair_convertSensorData e s h 2 (by omega),
    pair_convertSensorData e s h 3 (by omega), pair_convertSensorData e s h 4 (by omega),
    pair_convertSensorData e s h 5 (by omega), pair_convertSensorData e s h 6 (by omega),
    pair_convertSensorData e s h 7 (by omega), pair_convertSensorData e s h 8 (by omega),
    pair_convertSensorData e s h 9 (by omega), pair_convertSensorData e s h 10 (by omega),
    pair_convertSensorData e s h 11 (by omega), pair_convertSensorData e s h 12 (by omega),
    pair_convertSensorData e s h 13 (by omega), pair_convertSensorData e s h 14 (by omega)]

theorem isValidChecksum_convertSensorData (e : Endian) (s : Plantower_PMS7003)
    (h : BufBytes s.sensorData) :
    isValidChecksum e (convertSensorData e s) = true ↔ BufChecksumOk s.sensorData := by
  unfold isValidChecksum BufChecksumOk values_checksum PMS7003_DATA_SIZE
  simp only [checksumLoop_eq, sum_convertSensorData e s h]
  have := readU16_convertSensorData e s h 15 (Or.inr rfl)
  simp only [Nat.reduceMul, Nat.reduceAdd] at this
  rw [this]
  simp

/-! ### One call of `updateFrame` -/

theorem updateFrame_cons (e : Endian) (s : Plantower_PMS7003) (st : SerialStream) (b : Nat)
    (r : List Nat) (hi : s.initialized = true) (hrx : st.rx = b :: r) :
    updateFrame e s st =
      (checkFrame e (storeByte { s with dataReady := false } b), { st with rx := r }) := by
  unfold updateFrame
  rw [if_neg (by simp [hi]), hrx]

theorem updateFrame_nil (e : Endian) (s : Plantower_PMS7003) (st : SerialStream)
    (hi : s.initialized = true) (hrx : st.rx = []) :
    updateFrame e s st = (checkFrame e { s with dataReady := false }, st) := by
  unfold updateFrame
  rw [if_neg (by simp [hi]), hrx]

theorem storeByte_marker (s : Plantower_PMS7003) (b : Nat) (hb : b % 256 = 0x4d)
    (hl : s.lastByte = 0x42) :
    storeByte s b =
      { s with nextByte := 0x4d, lastByte := 0x4d, bufferIndex := 2,
               sensorData := setByte (setByte s.sensorData 0 0x42) 1 0x4d } := by
  simp [storeByte, hb, hl]

theorem storeByte_plain (s : Plantower_PMS7003) (b : Nat)
    (h : ¬ (b % 256 = 0x4d ∧ s.lastByte = 0x42)) :
    storeByte s b =
      { s with nextByte := b % 256, lastByte := b % 256, bufferIndex := s.bufferIndex + 1,
               sensorData := setByte s.sensorData s.bufferIndex (b % 256) } := by
  simp only [storeByte]
  rw [if_neg h]

theorem storeByte_fields (s : Plantower_PMS7003) (b : Nat) :
    (storeByte s b).initialized = s.initialized ∧ (storeByte s b).dataReady = s.dataReady ∧
    (storeByte s b).lastByte = b % 256 ∧ (storeByte s b)._mode = s._mode ∧
    (storeByte s b).debug = s.debug := by
  simp only [storeByte]
  split_ifs <;> simp

theorem convertSensorData_fields (e : Endian) (s : Plantower_PMS7003) :
    (convertSensorData e s).initialized = s.initialized ∧
    (convertSensorData e s).dataReady = s.dataReady ∧
    (convertSensorData e s).lastByte = s.lastByte ∧
    (convertSensorData e s).nextByte = s.nextByte ∧
    (convertSensorData e s).bufferIndex = s.bufferIndex ∧
    (convertSensorData e s)._mode = s._mode ∧
    (convertSensorData e s).debug = s.debug := by
  simp [convertSensorData]

theorem checkFrame_fields (e : Endian) (s : Plantower_PMS7003) :
    (checkFrame e s).initialized = s.initialized ∧ (checkFrame e s).lastByte = s.lastByte ∧
    (checkFrame e s)._mode = s._mode ∧ (checkFrame e s).debug = s.debug ∧
    (checkFrame e s).nextByte = s.nextByte := by
  simp only [checkFrame]
  split_ifs <;> simp [convertSensorData]

theorem checkFrame_incomplete (e : Endian) (s : Plantower_PMS7003)
    (h : s.bufferIndex ≠ PMS7003_DATA_SIZE) : checkFrame e s = s := by
  simp [checkFrame, h]

theorem checkFrame_complete (e : Endian) (s : Plantower_PMS7003)
    (h : s.bufferIndex = PMS7003_DATA_SIZE) (h0 : s.sensorData 0 = 0x42)
    (h1 : s.sensorData 1 = 0x4d) :
    checkFrame e s =
      { convertSensorData e s with
          dataReady := (isValidChecksum e (convertSensorData e s) || s.dataReady),
          bufferIndex := 0 } := by
  simp only [checkFrame]
  rw [if_pos h, if_pos ⟨h0, h1⟩]
  cases hv : isValidChecksum e (convertSensorData e s) <;>
    simp [(convertSensorData_fields e s).2.1]

/-! ### A frame fed byte by byte -/

theorem byteAt_lt (F : List Nat) (hb : ∀ b ∈ F, b < 256) (i : Nat) : byteAt F i < 256 := by
  unfold byteAt
  by_cases h : i < F.length
  · rw [List.getD_eq_getElem F 0 h]
    exact hb _ (List.getElem_mem h)
  · rw [List.getD_eq_default F 0 (by omega)]
    omega

theorem drop_eq_byteAt_cons (F : List Nat) (k : Nat) (h : k < F.length) :
    F.drop k = byteAt F k :: F.drop (k + 1) := by
  unfold byteAt
  rw [List.getD_eq_getElem F 0 h]
  exact List.drop_eq_getElem_cons h

theorem run_succ (e : Endian) (n : Nat) (c : Plantower_PMS7003 × SerialStream) :
    run e (n + 1) c = updateFrame e (run e n c).1 (run e n c).2 := rfl

theorem run_add (e : Endian) (m n : Nat) (c : Plantower_PMS7003 × SerialStream) :
    run e (m + n) c = run e n (run e m c) := by
  induction n with
  | zero => rfl
  | succ n ih => rw [← Nat.add_assoc, run_succ, ih, run_succ]

theorem buffered_two (e : Endian) (F rest : List Nat) (s : Plantower_PMS7003)
    (st : SerialStream) (hF : MarkedFrame F) (hi : s.initialized = true)
    (hrx : st.rx = F ++ rest) :
    Buffered F 2 (run e 2 (s, st)).1 ∧ (run e 2 (s, st)).2.rx = F.drop 2 ++ rest := by
  obtain ⟨hlen, hb, h0, h1⟩ := hF
  have hF0 : F.drop 0 = byteAt F 0 :: F.drop 1 := drop_eq_byteAt_cons F 0 (by omega)
  rw [List.drop_zero] at hF0
  have e0 : st.rx = byteAt F 0 :: (F.drop 1 ++ rest) := by
    rw [hrx]
    nth_rewrite 1 [hF0]
    rfl
  have e1 : F.drop 1 ++ rest = byteAt F 1 :: (F.drop 2 ++ rest) := by
    rw [drop_eq_byteAt_cons F 1 (by omega)]; rfl
  have r1 : run e 1 (s, st) = updateFrame e s st := rfl
  rw [run_succ, r1, updateFrame_cons e s st _ _ hi e0]
  generalize hs1 : checkFrame e (storeByte { s with dataReady := false } (byteAt F 0)) = s1
  have hi1 : s1.initialized = true := by
    rw [← hs1, (checkFrame_fields e _).1, (storeByte_fields _ _).1]
    exact hi
  have hl1 : s1.lastByte = 0x42 := by
    rw [← hs1, (checkFrame_fields e _).2.1, (storeByte_fields _ _).2.2.1, h0]
  rw [updateFrame_cons e s1 _ _ _ hi1 e1]
  rw [storeByte_marker { s1 with dataReady := false } _ (by rw [h1]) hl1]
  rw [checkFrame_incomplete _ _ (by simp [PMS7003_DATA_SIZE])]
  refine ⟨⟨hi1, rfl, rfl, by simp [h1], ?_⟩, rfl⟩
  intro i hi2
  interval_cases i
  · simp [setByte, h0]
  · simp [setByte, h1]

theorem buffered_step (e : Endian) (F rest : List Nat) (k : Nat) (s : Plantower_PMS7003)
    (st : SerialStream) (hF : MarkedFrame F) (hn : NoInnerMarker F) (hk2 : 2 ≤ k)
    (hk : k < 31) (hs : Buffered F k s) (hrx : st.rx = F.drop k ++ rest) :
    Buffered F (k + 1) (updateFrame e s st).1 ∧
      (updateFrame e s st).2.rx = F.drop (k + 1) ++ rest := by
  obtain ⟨hlen, hb, h0, h1⟩ := hF
  obtain ⟨hi, hd, hc, hl, hbuf⟩ := hs
  have e0 : st.rx = byteAt F k :: (F.drop (k + 1) ++ rest) := by
    rw [hrx, drop_eq_byteAt_cons F k (by omega)]; simp
  have hlt := byteAt_lt F hb k
  have hmod : byteAt F k % 256 = byteAt F k := Nat.mod_eq_of_lt hlt
  have hnm : ¬ (byteAt F k % 256 = 0x4d ∧
      ({ s with dataReady := false } : Plantower_PMS7003).lastByte = 0x42) := by
    rw [hmod]
    simp only [hl]
    rcases Nat.eq_or_lt_of_le hk2 with h2 | h2
    · subst h2
      simp [h1]
    · have := hn (k - 1) (by omega) (by omega)
      rw [Nat.sub_add_cancel (by omega)] at this
      tauto
  rw [updateFrame_cons e s st _ _ hi e0, storeByte_plain _ _ hnm,
    checkFrame_incomplete _ _ (by simp [PMS7003_DATA_SIZE, hc]; omega)]
  refine ⟨⟨hi, rfl, by simp [hc], by simp [hmod], ?_⟩, rfl⟩
  intro i hi2
  simp only [setByte, hc, hmod]
  by_cases hik : i = k
  · simp [hik]
  · rw [if_neg hik]
    exact hbuf i (by omega)

theorem buffered_run (e : Endian) (F rest : List Nat) (s : Plantower_PMS7003)
    (st : SerialStream) (hF : MarkedFrame F) (hn : NoInnerMarker F)
    (hi : s.initialized = true) (hrx : st.rx = F ++ rest) (k : Nat) (hk2 : 2 ≤ k)
    (hk : k ≤ 31) :
    Buffered F k (run e k (s, st)).1 ∧ (run e k (s, st)).2.rx = F.drop k ++ rest := by
  induction k, hk2 using Nat.le_induction with
  | base => exact buffered_two e F rest s st hF hi hrx
  | succ k hk2 ih =>
    obtain ⟨ih1, ih2⟩ := ih (by omega)
    rw [run_succ]
    exact buffered_step e F rest k _ _ hF hn hk2 (by omega) ih1 ih2

theorem take_eq_map_byteAt (F : List Nat) (n : Nat) (h : n ≤ F.length) :
    F.take n = (List.range n).map (byteAt F) := by
  apply List.ext_getElem
  · simp [h]
  · intro i h1 h2
    simp only [List.length_take, lt_min_iff] at h1
    simp [byteAt, List.getElem?_eq_getElem h1.2]

theorem bufChecksumOk_of_frame (F : List Nat) (d : PMS7003_DATABUF) (hlen : F.length = 32)
    (hd : ∀ i < 32, d i = byteAt F i) : BufChecksumOk d ↔ ChecksumOk F := by
  unfold BufChecksumOk ChecksumOk fieldAt
  rw [take_eq_map_byteAt F 30 (by omega), hd 30 (by omega), hd 31 (by omega)]
  have : (List.range 30).map d = (List.range 30).map (byteAt F) := by
    apply List.map_congr_left
    intro i hi
    exact hd i (by have := List.mem_range.mp hi; omega)
  rw [this]

theorem bufBytes_of_frame (F : List Nat) (d : PMS7003_DATABUF) (hb : ∀ b ∈ F, b < 256)
    (hd : ∀ i < 32, d i = byteAt F i) : BufBytes d := by
  intro i hi
  rw [hd i hi]
  exact byteAt_lt F hb i

theorem accessors16_convertSensorData (e : Endian) (s : Plantower_PMS7003)
    (h : BufBytes s.sensorData) :
    accessors16 e (convertSensorData e s) =
      [256 * s.sensorData 2 + s.sensorData 3, 256 * s.sensorData 4 + s.sensorData 5,
       256 * s.sensorData 6 + s.sensorData 7, 256 * s.sensorData 8 + s.sensorData 9,
       256 * s.sensorData 10 + s.sensorData 11, 256 * s.sensorData 12 + s.sensorData 13,
       256 * s.sensorData 14 + s.sensorData 15, 256 * s.sensorData 16 + s.sensorData 17,
       256 * s.sensorData 18 + s.sensorData 19, 256 * s.sensorData 20 + s.sensorData 21,
       256 * s.sensorData 22 + s.sensorData 23, 256 * s.sensorData 24 + s.sensorData 25] := by
  have r := fun k hk => readU16_convertSensorData e s h k (Or.inl hk)
  have r1 := r 1 (by omega)
  have r2 := r 2 (by omega)
  have r3 := r 3 (by omega)
  have r4 := r 4 (by omega)
  have r5 := r 5 (by omega)
  have r6 := r 6 (by omega)
  have r7 := r 7 (by omega)
  have r8 := r 8 (by omega)
  have r9 := r 9 (by omega)
  have r10 := r 10 (by omega)
  have r11 := r 11 (by omega)
  have r12 := r 12 (by omega)
  simp only [Nat.reduceMul, Nat.reduceAdd] at r1 r2 r3 r4 r5 r6 r7 r8 r9 r10 r11 r12
  simp only [accessors16, getPM_1_0, getPM_2_5, getPM_10_0, getPM_1_0_atmos, getPM_2_5_atmos,
    getPM_10_0_atmos, getRawGreaterThan_0_3, getRawGreaterThan_0_5, getRawGreaterThan_1_0,
    getRawGreaterThan_2_5, getRawGreaterThan_5_0, getRawGreaterThan_10_0, values_pm_1_0,
    values_pm_2_5, values_pm_10_0, values_pm_1_0_atmos, values_pm_2_5_atmos,
    values_pm_10_0_atmos, values_raw_gt_0_3, values_raw_gt_0_5, values_raw_gt_1_0,
    values_raw_gt_2_5, values_raw_gt_5_0, values_raw_gt_10_0,
    r1, r2, r3, r4, r5, r6, r7, r8, r9, r10, r11, r12]

theorem accessors16_congr (e : Endian) (s t : Plantower_PMS7003)
    (h : ∀ i < 32, s.sensorData i = t.sensorData i) : accessors16 e s = accessors16 e t := by
  cases e <;>
  simp only [accessors16, getPM_1_0, getPM_2_5, getPM_10_0, getPM_1_0_atmos, getPM_2_5_atmos,
    getPM_10_0_atmos, getRawGreaterThan_0_3, getRawGreaterThan_0_5, getRawGreaterThan_1_0,
    getRawGreaterThan_2_5, getRawGreaterThan_5_0, getRawGreaterThan_10_0, values_pm_1_0,
    values_pm_2_5, values_pm_10_0, values_pm_1_0_atmos, values_pm_2_5_atmos,
    values_pm_10_0_atmos, values_raw_gt_0_3, values_raw_gt_0_5, values_raw_gt_1_0,
    values_raw_gt_2_5, values_raw_gt_5_0, values_raw_gt_10_0, readU16, Nat.reduceAdd,
    h 2 (by omega), h 3 (by omega), h 4 (by omega), h 5 (by omega), h 6 (by omega),
    h 7 (by omega), h 8 (by omega), h 9 (by omega), h 10 (by omega), h 11 (by omega),
    h 12 (by omega), h 13 (by omega), h 14 (by omega), h 15 (by omega), h 16 (by omega),
    h 17 (by omega), h 18 (by omega), h 19 (by omega), h 20 (by omega), h 21 (by omega),
    h 22 (by omega), h 23 (by omega), h 24 (by omega), h 25 (by omega)]

theorem convertSensorData_congr (e : Endian) (s t : Plantower_PMS7003)
    (h : ∀ i < 32, s.sensorData i = t.sensorData i) :
    ∀ i < 32, (convertSensorData e s).sensorData i = (convertSensorData e t).sensorData i := by
  intro i hi
  rw [convertSensorData_apply, convertSensorData_apply, h i hi]
  rw [convByte_congr e t.sensorData s.sensorData i (fun j hj => h j (by omega))]

theorem accessors16_of_decoded (e : Endian) (F : List Nat) (s : Plantower_PMS7003)
    (hF : MarkedFrame F) (hs : Decoded e F s) : accessors16 e s = encodedFields F := by
  obtain ⟨hlen, hb, -, -⟩ := hF
  obtain ⟨-, -, -, -, hd⟩ := hs
  have hbb : BufBytes (withFrame s F).sensorData := fun i _ => byteAt_lt F hb i
  rw [accessors16_congr e s (convertSensorData e (withFrame s F)) ?_,
    accessors16_convertSensorData e _ hbb]
  · rfl
  · intro i hi
    rw [hd i hi, convertSensorData_apply]
    rfl

theorem decoded_step (e : Endian) (F rest : List Nat) (s : Plantower_PMS7003)
    (st : SerialStream) (hF : MarkedFrame F) (hn : NoInnerMarker F)
    (hs : Buffered F 31 s) (hrx : st.rx = F.drop 31 ++ rest) :
    Decoded e F (updateFrame e s st).1 ∧ (updateFrame e s st).2.rx = rest := by
  obtain ⟨hlen, hb, h0, h1⟩ := hF
  obtain ⟨hi, hd, hc, hl, hbuf⟩ := hs
  have e0 : st.rx = byteAt F 31 :: rest := by
    rw [hrx, drop_eq_byteAt_cons F 31 (by omega), List.drop_of_length_le (by omega)]; rfl
  have hlt := byteAt_lt F hb 31
  have hmod : byteAt F 31 % 256 = byteAt F 31 := Nat.mod_eq_of_lt hlt
  have hnm : ¬ (byteAt F 31 % 256 = 0x4d ∧
      ({ s with dataReady := false } : Plantower_PMS7003).lastByte = 0x42) := by
    rw [hmod]
    simp only [hl]
    have := hn 30 (by omega) (by omega)
    tauto
  rw [updateFrame_cons e s st _ _ hi e0, storeByte_plain _ _ hnm]
  generalize hm : ({ ({ s with dataReady := false } : Plantower_PMS7003) with
      nextByte := byteAt F 31 % 256, lastByte := byteAt F 31 % 256,
      bufferIndex := ({ s with dataReady := false } : Plantower_PMS7003).bufferIndex + 1,
      sensorData := setByte ({ s with dataReady := false } : Plantower_PMS7003).sensorData
        ({ s with dataReady := false } : Plantower_PMS7003).bufferIndex (byteAt F 31 % 256) } :
      Plantower_PMS7003) = m
  have m_init : m.initialized = true := by rw [← hm]; exact hi
  have m_ready : m.dataReady = false := by rw [← hm]
  have m_last : m.lastByte = byteAt F 31 := by rw [← hm]; exact hmod
  have m_idx : m.bufferIndex = PMS7003_DATA_SIZE := by
    rw [← hm]; simp [hc, PMS7003_DATA_SIZE]
  have m_buf : ∀ i < 32, m.sensorData i = byteAt F i := by
    intro i hi2
    rw [← hm]
    simp only [setByte, hc, hmod]
    by_cases hik : i = 31
    · simp [hik]
    · rw [if_neg hik]
      exact hbuf i (by omega)
  rw [checkFrame_complete e m m_idx (by rw [m_buf 0 (by omega), h0])
    (by rw [m_buf 1 (by omega), h1])]
  refine ⟨⟨?_, rfl, ?_, ?_, ?_⟩, rfl⟩
  · simpa [(convertSensorData_fields e m).1] using m_init
  · simpa [(convertSensorData_fields e m).2.2.1] using m_last
  · simp only [m_ready, Bool.or_false]
    rw [isValidChecksum_convertSensorData e m (bufBytes_of_frame F _ hb m_buf)]
    exact bufChecksumOk_of_frame F _ hlen m_buf
  · intro i hi2
    simp only
    rw [convertSensorData_apply, m_buf i hi2]
    rw [convByte_congr e (byteAt F) m.sensorData i (fun j hj => m_buf j (by omega))]

theorem updateFrame_initialized (e : Endian) (s : Plantower_PMS7003) (st : SerialStream) :
    (updateFrame e s st).1.initialized = s.initialized := by
  unfold updateFrame
  split_ifs with h
  · rfl
  · cases hrx : st.rx with
    | nil => simp only; rw [(checkFrame_fields e _).1]
    | cons b r => simp only; rw [(checkFrame_fields e _).1, (storeByte_fields _ _).1]

theorem run_rx (e : Endian) (s : Plantower_PMS7003) (st : SerialStream)
    (hi : s.initialized = true) (n : Nat) (hn : n ≤ st.rx.length) :
    (run e n (s, st)).1.initialized = true ∧ (run e n (s, st)).2.rx = st.rx.drop n := by
  induction n with
  | zero => exact ⟨hi, rfl⟩
  | succ n ih =>
    obtain ⟨ih1, ih2⟩ := ih (by omega)
    have hd : st.rx.drop n = byteAt st.rx n :: st.rx.drop (n + 1) :=
      drop_eq_byteAt_cons st.rx n (by omega)
    rw [run_succ]
    refine ⟨by rw [updateFrame_initialized]; exact ih1, ?_⟩
    rw [updateFrame_cons e _ _ _ _ ih1 (ih2.trans hd)]

theorem decoded_run (e : Endian) (F rest : List Nat) (s : Plantower_PMS7003)
    (st : SerialStream) (hF : MarkedFrame F) (hn : NoInnerMarker F)
    (hi : s.initialized = true) (hrx : st.rx = F ++ rest) :
    Decoded e F (run e 32 (s, st)).1 ∧ (run e 32 (s, st)).2.rx = rest := by
  obtain ⟨h1, h2⟩ := buffered_run e F rest s st hF hn hi hrx 31 (by omega) (by omega)
  rw [run_succ]
  exact decoded_step e F rest _ _ hF hn h1 h2

theorem quiet_byte (e : Endian) (s : Plantower_PMS7003) (st : SerialStream) (b : Nat)
    (r : List Nat) (hi : s.initialized = true) (hrx : st.rx = b :: r) (hb : b % 256 ≠ 0x4d)
    (hc : s.bufferIndex + 1 ≠ PMS7003_DATA_SIZE) :
    (updateFrame e s st).1.dataReady = false := by
  rw [updateFrame_cons e s st b r hi hrx, storeByte_plain _ _ (by tauto),
    checkFrame_incomplete _ _ hc]

theorem quiet_first (e : Endian) (F rest : List Nat) (s : Plantower_PMS7003)
    (st : SerialStream) (hF : MarkedFrame F) (hi : s.initialized = true)
    (hc : s.bufferIndex = 0) (hrx : st.rx = F ++ rest) :
    (run e 1 (s, st)).1.dataReady = false := by
  obtain ⟨hlen, hb, h0, h1⟩ := hF
  have hF0 : F.drop 0 = byteAt F 0 :: F.drop 1 := drop_eq_byteAt_cons F 0 (by omega)
  rw [List.drop_zero] at hF0
  have e0 : st.rx = byteAt F 0 :: (F.drop 1 ++ rest) := by
    rw [hrx]
    nth_rewrite 1 [hF0]
    rfl
  exact quiet_byte e s st _ _ hi e0 (by rw [h0]; decide) (by rw [hc]; decide)

/-- One marker-led frame fed to an initialised driver whose cursor is at 0: the ready flag is
raised by the 32nd call if the checksum holds, and by no other call. -/
theorem frame_from_zero (e : Endian) (F rest : List Nat) (s : Plantower_PMS7003)
    (st : SerialStream) (hF : MarkedFrame F) (hn : NoInnerMarker F)
    (hi : s.initialized = true) (hc : s.bufferIndex = 0)
    (hrx : st.rx = F ++ rest) (k : Nat) (hk1 : 1 ≤ k) (hk : k ≤ 32) :
    (hasNewData (run e k (s, st)).1 = true ↔ k = 32 ∧ ChecksumOk F) := by
  unfold hasNewData
  have hdec := (decoded_run e F rest s st hF hn hi hrx).1
  obtain h | h | h : k = 1 ∨ (2 ≤ k ∧ k ≤ 31) ∨ k = 32 := by omega
  · subst h
    rw [quiet_first e F rest s st hF hi hc hrx]
    simp
  · rw [(buffered_run e F rest s st hF hn hi hrx k h.1 h.2).1.2.1]
    simp
    omega
  · subst h
    simp [hdec.2.2.2.1]

theorem accessors_congr (e : Endian) (s t : Plantower_PMS7003)
    (h : s.sensorData = t.sensorData) : accessors e s = accessors e t := by
  simp only [accessors, accessors16, getPM_1_0, getPM_2_5, getPM_10_0, getPM_1_0_atmos,
    getPM_2_5_atmos, getPM_10_0_atmos, getRawGreaterThan_0_3, getRawGreaterThan_0_5,
    getRawGreaterThan_1_0, getRawGreaterThan_2_5, getRawGreaterThan_5_0,
    getRawGreaterThan_10_0, getHWVersion, getErrorCode, h]

theorem reachable_run (e : Endian) (s : Plantower_PMS7003) (st : SerialStream)
    (h : Reachable e s) (n : Nat) : Reachable e (run e n (s, st)).1 := by
  induction n with
  | zero => exact h
  | succ n ih => exact Reachable.updateFrame _ ih

theorem checkFrame_dataReady (e : Endian) (m : Plantower_PMS7003) (hd : m.dataReady = false) :
    (checkFrame e m).dataReady = true ↔
      m.bufferIndex = PMS7003_DATA_SIZE ∧ m.sensorData 0 = 0x42 ∧ m.sensorData 1 = 0x4d ∧
        isValidChecksum e (convertSensorData e m) = true := by
  by_cases h : m.bufferIndex = PMS7003_DATA_SIZE
  · by_cases hm : m.sensorData 0 = 0x42 ∧ m.sensorData 1 = 0x4d
    · rw [checkFrame_complete e m h hm.1 hm.2]
      simp [hd, h, hm.1, hm.2]
    · simp only [checkFrame]
      rw [if_pos h, if_neg hm]
      simp only [hd]
      constructor
      · intro hf; cases hf
      · intro hf; exact absurd ⟨hf.2.1, hf.2.2.1⟩ hm
  · rw [checkFrame_incomplete e m h, hd]
    constructor
    · intro hf; cases hf
    · intro hf; exact absurd hf.1 h

/-! ### Reachable states, idle calls and byte sums -/

theorem storeByte_bufferIndex_le (s : Plantower_PMS7003) (b : Nat)
    (h : s.bufferIndex < PMS7003_DATA_SIZE) :
    (storeByte s b).bufferIndex ≤ PMS7003_DATA_SIZE := by
  unfold PMS7003_DATA_SIZE at *
  simp only [storeByte]
  split_ifs
  · simp
  · simp only; omega

theorem checkFrame_bufferIndex_lt (e : Endian) (s : Plantower_PMS7003)
    (h : s.bufferIndex ≤ PMS7003_DATA_SIZE) :
    (checkFrame e s).bufferIndex < PMS7003_DATA_SIZE := by
  unfold PMS7003_DATA_SIZE at *
  simp only [checkFrame, PMS7003_DATA_SIZE]
  split_ifs <;> first | omega | simp

theorem inv_updateFrame (e : Endian) (s : Plantower_PMS7003) (st : SerialStream) (h : Inv s) :
    Inv (updateFrame e s st).1 := by
  cases hi : s.initialized with
  | false =>
    have : updateFrame e s st = (s, st) := by simp [updateFrame, hi]
    rw [this]
    exact h
  | true =>
    refine ⟨fun hf => ?_, fun _ => ?_⟩
    · rw [updateFrame_initialized, hi] at hf
      cases hf
    · have hlt := h.2 hi
      cases hrx : st.rx with
      | nil =>
        rw [updateFrame_nil e s st hi hrx]
        exact checkFrame_bufferIndex_lt e _ (Nat.le_of_lt hlt)
      | cons b r =>
        rw [updateFrame_cons e s st b r hi hrx]
        exact checkFrame_bufferIndex_lt e _ (storeByte_bufferIndex_le _ b hlt)

theorem inv_of_reachable (e : Endian) (s : Plantower_PMS7003) (h : Reachable e s) : Inv s := by
  induction h with
  | new u => exact ⟨fun _ => rfl, fun h => by cases h⟩
  | init _ _ => exact ⟨fun h => (by cases h), fun _ => (by simp [init, PMS7003_DATA_SIZE])⟩
  | updateFrame st _ ih => exact inv_updateFrame e _ st ih
  | sleep st _ ih => exact ih
  | wakeUp st _ ih => exact ih
  | activeMode st _ ih => exact ih
  | passiveMode st _ ih => exact ih
  | requestRead st _ ih =>
    unfold requestRead
    split_ifs <;> exact ih

theorem updateFrame_idle (e : Endian) (s : Plantower_PMS7003) (st : SerialStream) (h : Inv s)
    (hrx : st.rx = []) :
    (updateFrame e s st).1.sensorData = s.sensorData ∧ (updateFrame e s st).2 = st ∧
    (updateFrame e s st).1.dataReady = false := by
  cases hi : s.initialized with
  | false =>
    have : updateFrame e s st = (s, st) := by simp [updateFrame, hi]
    rw [this]
    exact ⟨rfl, rfl, h.1 hi⟩
  | true =>
    have hlt := h.2 hi
    rw [updateFrame_nil e s st hi hrx, checkFrame_incomplete e _ (by simp; omega)]
    exact ⟨rfl, rfl, rfl⟩

theorem run_idle (e : Endian) (s : Plantower_PMS7003) (st : SerialStream) (h : Inv s)
    (hrx : st.rx = []) (n : Nat) :
    Inv (run e n (s, st)).1 ∧ (run e n (s, st)).1.sensorData = s.sensorData ∧
      (run e n (s, st)).2 = st := by
  induction n with
  | zero => exact ⟨h, rfl, rfl⟩
  | succ n ih =>
    obtain ⟨i1, i2, i3⟩ := ih
    rw [run_succ]
    have hrx2 : (run e n (s, st)).2.rx = [] := by rw [i3]; exact hrx
    obtain ⟨u1, u2, -⟩ := updateFrame_idle e _ _ i1 hrx2
    exact ⟨inv_updateFrame e _ _ i1, u1.trans i2, u2.trans i3⟩

theorem sum_setByte (d : PMS7003_DATABUF) (i b n : Nat) :
    ((List.range n).map (setByte d i b)).sum + (if i < n then d i else 0) =
      ((List.range n).map d).sum + (if i < n then b else 0) := by
  induction n with
  | zero => simp
  | succ n ih =>
    simp only [List.range_succ, List.map_append, List.sum_append, List.map_cons, List.map_nil,
      List.sum_cons, List.sum_nil, Nat.add_zero]
    by_cases h1 : i < n
    · have h3 : i < n + 1 := by omega
      have h4 : setByte d i b n = d n := by
        unfold setByte
        rw [if_neg (by omega)]
      simp only [if_pos h1] at ih
      simp only [if_pos h3, h4]
      omega
    · simp only [if_neg h1] at ih
      by_cases h2 : i = n
      · subst h2
        have h4 : setByte d i b i = b := by simp [setByte]
        simp only [if_pos (Nat.lt_succ_self i), h4]
        omega
      · have h3 : ¬ i < n + 1 := by omega
        have h4 : setByte d i b n = d n := by
          unfold setByte
          rw [if_neg (by omega)]
        simp only [if_neg h3, h4]
        omega

theorem sum_le (d : PMS7003_DATABUF) (n : Nat) (h : ∀ i < n, d i < 256) :
    ((List.range n).map d).sum ≤ 255 * n := by
  induction n with
  | zero => simp
  | succ n ih =>
    have := ih (fun i hi => h i (by omega))
    have := h n (by omega)
    simp only [List.range_succ, List.map_append, List.sum_append, List.map_cons, List.map_nil,
      List.sum_cons, List.sum_nil]
    omega

/-! ### The buffer tracks the bytes read -/

theorem storeByte_storeIndex (s : Plantower_PMS7003) (b : Nat) :
    (storeByte s b).bufferIndex = storeIndex s b + 1 ∧
    (storeByte s b).sensorData (storeIndex s b) = b % 256 ∧
    ∀ j, j ≠ storeIndex s b → j ≠ 0 → (storeByte s b).sensorData j = s.sensorData j := by
  unfold storeIndex
  by_cases h : b % 256 = 0x4d ∧ s.lastByte = 0x42
  · rw [if_pos h, storeByte_marker s b h.1 h.2]
    refine ⟨rfl, by simp [setByte, h.1], fun j h1 h0 => ?_⟩
    simp [setByte, h1, h0]
  · rw [if_neg h, storeByte_plain s b h]
    refine ⟨rfl, by simp [setByte], fun j h1 _ => ?_⟩
    simp [setByte, h1]

theorem updateFrame_mode (e : Endian) (s : Plantower_PMS7003) (st : SerialStream) :
    (updateFrame e s st).1._mode = s._mode ∧ (updateFrame e s st).2.tx = st.tx := by
  unfold updateFrame
  split_ifs with h
  · exact ⟨rfl, rfl⟩
  · cases hrx : st.rx with
    | nil => exact ⟨(checkFrame_fields e _).2.2.1, rfl⟩
    | cons b r =>
      exact ⟨(checkFrame_fields e _).2.2.1.trans (storeByte_fields _ b).2.2.2.1, rfl⟩

theorem checkFrame_reset (e : Endian) (s : Plantower_PMS7003)
    (h : s.bufferIndex = PMS7003_DATA_SIZE) : (checkFrame e s).bufferIndex = 0 := by
  simp only [checkFrame]
  rw [if_pos h]
  split_ifs <;> rfl

theorem shiftLeft_or_eq (a b : Nat) (hb : b < 256) : (a <<< 8) ||| b = 256 * a + b := by
  have h := @Nat.mul_add_lt_is_or 8 b hb a
  rw [Nat.shiftLeft_eq]
  rw [Nat.mul_comm a (2 ^ 8), ← h]

theorem getD_snoc_last (h : List Nat) (b : Nat) : (h ++ [b]).getD h.length 0 = b := by
  rw [List.getD_append_right h [b] 0 h.length (Nat.le_refl _), Nat.sub_self]
  rfl

theorem getLast_getD (h : List Nat) : h.getLast?.getD 0 = h.getD (h.length - 1) 0 := by
  rw [List.getLast?_eq_getElem?, List.getD_eq_getElem?_getD]

theorem tracks_storeByte (s : Plantower_PMS7003) (h : List Nat) (b : Nat) (ht : Tracks s h)
    (hb : b < 256) : Tracks (storeByte { s with dataReady := false } b) (h ++ [b]) := by
  obtain ⟨hi, hbytes, hle, hlast, hbuf⟩ := ht
  have hmod : b % 256 = b := Nat.mod_eq_of_lt hb
  have hmem : ∀ x ∈ h ++ [b], x < 256 := by
    intro x hx
    rcases List.mem_append.mp hx with hx | hx
    · exact hbytes x hx
    · rw [List.mem_singleton.mp hx]; exact hb
  have hnew : (h ++ [b]).getLast?.getD 0 = b := by rw [List.getLast?_concat]; rfl
  have hlen : (h ++ [b]).length = h.length + 1 := by simp
  by_cases hm : b % 256 = 0x4d ∧ ({ s with dataReady := false } : Plantower_PMS7003).lastByte = 0x42
  · rw [storeByte_marker _ b hm.1 hm.2]
    have hb4 : b = 0x4d := by rw [← hmod]; exact hm.1
    have hl42 : h.getLast?.getD 0 = 0x42 := by rw [← hlast]; exact hm.2
    have hne : 1 ≤ h.length := by
      rcases Nat.eq_zero_or_pos h.length with h0 | h0
      · rw [List.length_eq_zero.mp h0] at hl42
        simp at hl42
      · exact h0
    refine ⟨hi, hmem, by rw [hlen]; show 2 ≤ h.length + 1; omega, ?_, ?_⟩
    · rw [hnew]; exact hb4.symm
    · intro i hi2
      show setByte (setByte s.sensorData 0 0x42) 1 0x4d i = _
      have hi3 : i < 2 := hi2
      rw [hlen]
      show _ = (h ++ [b]).getD (h.length + 1 - 2 + i) 0
      interval_cases i
      · have e1 : h.length + 1 - 2 + 0 = h.length - 1 := by omega
        rw [e1, List.getD_append h [b] 0 _ (by omega), ← getLast_getD, hl42]
        simp [setByte]
      · have e1 : h.length + 1 - 2 + 1 = h.length := by omega
        rw [e1, getD_snoc_last, hb4]
        simp [setByte]
  · rw [storeByte_plain _ b hm]
    refine ⟨hi, hmem, by rw [hlen]; show s.bufferIndex + 1 ≤ h.length + 1; omega, ?_, ?_⟩
    · rw [hnew]; exact hmod
    · intro i hi2
      have hi3 : i < s.bufferIndex + 1 := hi2
      show setByte s.sensorData s.bufferIndex (b % 256) i = _
      rw [hlen]
      show _ = (h ++ [b]).getD (h.length + 1 - (s.bufferIndex + 1) + i) 0
      by_cases hic : i = s.bufferIndex
      · have e1 : h.length + 1 - (s.bufferIndex + 1) + i = h.length := by omega
        rw [e1, getD_snoc_last, hic]
        simp [setByte, hmod]
      · have e1 : h.length + 1 - (s.bufferIndex + 1) + i = h.length - s.bufferIndex + i := by
          omega
        rw [e1, List.getD_append h [b] 0 _ (by omega), ← hbuf i (by omega)]
        simp [setByte, hic]

theorem tracks_checkFrame (e : Endian) (s : Plantower_PMS7003) (h : List Nat)
    (ht : Tracks s h) : Tracks (checkFrame e s) h := by
  by_cases hc : s.bufferIndex = PMS7003_DATA_SIZE
  · obtain ⟨hi, hbytes, -, hlast, -⟩ := ht
    have hf := checkFrame_fields e s
    refine ⟨hf.1.trans hi, hbytes, ?_, hf.2.1.trans hlast, ?_⟩
    · rw [checkFrame_reset e s hc]; exact Nat.zero_le _
    · intro i hi2
      rw [checkFrame_reset e s hc] at hi2
      exact absurd hi2 (Nat.not_lt_zero _)
  · rw [checkFrame_incomplete e s hc]
    exact ht

theorem tracks_of_readSinceInit (e : Endian) (s : Plantower_PMS7003) (h : List Nat)
    (hr : ReadSinceInit e s h) : Tracks s h ∧ s.bufferIndex < PMS7003_DATA_SIZE := by
  induction hr with
  | init s =>
    refine ⟨⟨rfl, fun b hb => (by cases hb), Nat.zero_le _, rfl, fun i hi => ?_⟩, (by simp [init, PMS7003_DATA_SIZE])⟩
    exact absurd hi (Nat.not_lt_zero _)
  | idle st _ hrx ih =>
    obtain ⟨ht, hlt⟩ := ih
    rw [updateFrame_nil e _ st ht.1 hrx,
      checkFrame_incomplete e _ (by show _ ≠ _; exact Nat.ne_of_lt hlt)]
    exact ⟨ht, hlt⟩
  | read st b r _ hrx hb ih =>
    obtain ⟨ht, hlt⟩ := ih
    rw [updateFrame_cons e _ st b r ht.1 hrx]
    exact ⟨tracks_checkFrame e _ _ (tracks_storeByte _ _ b ht hb),
      checkFrame_bufferIndex_lt e _ (storeByte_bufferIndex_le _ b hlt)⟩
  | sleep st _ ih => exact ih
  | wakeUp st _ ih => exact ih
  | activeMode st _ ih => exact ih
  | passiveMode st _ ih => exact ih
  | requestRead st _ ih =>
    unfold requestRead
    split_ifs <;> exact ih

theorem byteAt_drop (h : List Nat) (k i : Nat) : byteAt (h.drop k) i = h.getD (k + i) 0 := by
  unfold byteAt
  rw [List.getD_eq_getElem?_getD, List.getD_eq_getElem?_getD, List.getElem?_drop]

theorem tracks_prefix (s : Plantower_PMS7003) (h : List Nat) (ht : Tracks s h) :
    (List.range s.bufferIndex).map s.sensorData = h.drop (h.length - s.bufferIndex) := by
  obtain ⟨-, -, hle, -, hbuf⟩ := ht
  apply List.ext_getElem
  · simp only [List.length_map, List.length_range, List.length_drop]
    omega
  · intro i h1 h2
    simp only [List.length_map, List.length_range] at h1
    simp only [List.getElem_map, List.getElem_range, List.getElem_drop]
    rw [hbuf i h1, List.getD_eq_getElem h 0 (by omega)]

theorem frame_of_tracks (s : Plantower_PMS7003) (h : List Nat) (ht : Tracks s h)
    (hc : s.bufferIndex = PMS7003_DATA_SIZE) :
    (h.drop (h.length - 32)).length = 32 ∧ (∀ b ∈ h.drop (h.length - 32), b < 256) ∧
    ∀ i < 32, s.sensorData i = byteAt (h.drop (h.length - 32)) i := by
  obtain ⟨-, hbytes, hle, -, hbuf⟩ := ht
  have hc2 : s.bufferIndex = 32 := hc
  rw [hc2] at hle hbuf
  refine ⟨by rw [List.length_drop]; omega, fun b hb => hbytes b (List.mem_of_mem_drop hb), ?_⟩
  intro i hi
  rw [byteAt_drop, hbuf i hi]

theorem readSinceInit_run (e : Endian) (s : Plantower_PMS7003) (h : List Nat)
    (st : SerialStream) (hr : ReadSinceInit e s h) (hb : ∀ b ∈ st.rx, b < 256) (n : Nat)
    (hn : n ≤ st.rx.length) :
    ReadSinceInit e (run e n (s, st)).1 (h ++ st.rx.take n) ∧
      (run e n (s, st)).2.rx = st.rx.drop n := by
  induction n with
  | zero => exact ⟨by simpa using hr, rfl⟩
  | succ n ih =>
    obtain ⟨ih1, ih2⟩ := ih (by omega)
    have hd : st.rx.drop n = byteAt st.rx n :: st.rx.drop (n + 1) :=
      drop_eq_byteAt_cons st.rx n (by omega)
    have hlt : byteAt st.rx n < 256 := byteAt_lt st.rx hb n
    have ht : st.rx.take (n + 1) = st.rx.take n ++ [byteAt st.rx n] := by
      rw [List.take_succ, List.getElem?_eq_getElem (by omega : n < st.rx.length)]
      unfold byteAt
      rw [List.getD_eq_getElem st.rx 0 (by omega : n < st.rx.length)]
      rfl
    rw [run_succ, ht, ← List.append_assoc]
    refine ⟨ReadSinceInit.read _ _ _ ih1 (ih2.trans hd) hlt, ?_⟩
    rw [updateFrame_cons e _ _ _ _ (tracks_of_readSinceInit e _ _ ih1).1.1 (ih2.trans hd)]

theorem run_mode (e : Endian) (n : Nat) (c : Plantower_PMS7003 × SerialStream) :
    (run e n c).1._mode = c.1._mode ∧ (run e n c).2.tx = c.2.tx := by
  induction n with
  | zero => exact ⟨rfl, rfl⟩
  | succ n ih =>
    rw [run_succ]
    exact ⟨(updateFrame_mode e _ _).1.trans ih.1, (updateFrame_mode e _ _).2.trans ih.2⟩

theorem decoded_one_byte_fields (e : Endian) (F : List Nat) (s : Plantower_PMS7003)
    (hs : Decoded e F s) :
    s.sensorData 28 = byteAt F 28 ∧ s.sensorData 29 = byteAt F 29 := by
  obtain ⟨-, -, -, -, hd⟩ := hs
  have h28 := hd 28 (by omega)
  have h29 := hd 29 (by omega)
  rw [if_neg (by omega)] at h28 h29
  exact ⟨h28, h29⟩

theorem checksumLoop_exact (d : PMS7003_DATABUF) (n : Nat) (hn : n ≤ 256)
    (h : ∀ i < n, d i < 256) : checksumLoop d n = ((List.range n).map d).sum := by
  rw [checksumLoop_eq]
  have := sum_le d n h
  exact Nat.mod_eq_of_lt (by omega)

/-! ## The claims -/

/-- C1, as stated, fails: `innerMarkerFrame` is a checksum-valid frame that starts with the
marker, yet when it is fed first (followed by the valid `specFrame`) to a freshly initialised
driver, `hasNewData()` is false after the 32nd call. Its bytes 14-15 are 0x42 0x4D, which the
marker test of `updateFrame` takes for a frame start. -/
theorem C1_counterexample :
    ValidFrame innerMarkerFrame ∧ ValidFrame specFrame ∧
    hasNewData (run Endian.little 32
      (init (new blank), ⟨innerMarkerFrame ++ specFrame, []⟩)).1 = false := by
  decide

/-- C1, amended: for two checksum-valid frames `F1`, `F2` in neither of which 0x42 is
immediately followed by 0x4D at an offset from 2 on, feeding `F1` then `F2` one byte per
`updateFrame()` call to a freshly `init()`-ed driver gives `hasNewData()` true after exactly the
32nd and the 64th call and false after every other call up to the 64th (and before the first),
the twelve 16-bit accessors returning the fields encoded by `F1` after the 32nd call and those
encoded by `F2` after the 64th. -/
theorem C1_two_frames (e : Endian) (u : Plantower_PMS7003) (st : SerialStream)
    (F1 F2 : List Nat) (h1 : ValidFrame F1) (h2 : ValidFrame F2) (n1 : NoInnerMarker F1)
    (n2 : NoInnerMarker F2) (hrx : st.rx = F1 ++ F2) :
    (∀ k, k ≤ 64 → (hasNewData (run e k (init u, st)).1 = true ↔ k = 32 ∨ k = 64)) ∧
    accessors16 e (run e 32 (init u, st)).1 = encodedFields F1 ∧
    accessors16 e (run e 64 (init u, st)).1 = encodedFields F2 := by
  obtain ⟨d1, r1⟩ := decoded_run e F1 F2 (init u) st h1.1 n1 rfl hrx
  have hrx2 : (run e 32 (init u, st)).2.rx = F2 ++ [] := by rw [r1, List.append_nil]
  obtain ⟨d2, -⟩ := decoded_run e F2 [] (run e 32 (init u, st)).1 (run e 32 (init u, st)).2
    h2.1 n2 d1.1 hrx2
  have split : ∀ j, run e (32 + j) (init u, st) =
      run e j ((run e 32 (init u, st)).1, (run e 32 (init u, st)).2) :=
    fun j => run_add e 32 j _
  refine ⟨fun k hk => ?_, accessors16_of_decoded e F1 _ h1.1 d1, ?_⟩
  · obtain h | h | h : k = 0 ∨ (1 ≤ k ∧ k ≤ 32) ∨ (33 ≤ k ∧ k ≤ 64) := by omega
    · subst h
      simp [run, init, hasNewData]
    · rw [frame_from_zero e F1 F2 (init u) st h1.1 n1 rfl rfl hrx k h.1 h.2]
      have := h1.2
      constructor
      · intro hh; exact Or.inl hh.1
      · intro hh; exact ⟨by omega, this⟩
    · obtain ⟨j, rfl⟩ : ∃ j, k = 32 + j := ⟨k - 32, by omega⟩
      rw [split j, frame_from_zero e F2 [] _ _ h2.1 n2 d1.1 d1.2.1 hrx2 j (by omega) (by omega)]
      have := h2.2
      constructor
      · intro hh; exact Or.inr (by omega)
      · intro hh; exact ⟨by omega, this⟩
  · rw [split 32]
    exact accessors16_of_decoded e F2 _ h2.1 d2

/-- C1, the concrete scenario of the spec: `specFrame` followed by `otherFrame` on a
little-endian host; after the 32nd call `getPM_1_0()` returns 1. -/
theorem C1_two_frames_witness :
    ValidFrame specFrame ∧ ValidFrame otherFrame ∧ NoInnerMarker specFrame ∧
    NoInnerMarker otherFrame ∧
    ((∀ k, k ≤ 64 → (hasNewData (run Endian.little k
        (init (new blank), ⟨specFrame ++ otherFrame, []⟩)).1 = true ↔ k = 32 ∨ k = 64)) ∧
      accessors16 Endian.little (run Endian.little 32
        (init (new blank), ⟨specFrame ++ otherFrame, []⟩)).1 = encodedFields specFrame ∧
      accessors16 Endian.little (run Endian.little 64
        (init (new blank), ⟨specFrame ++ otherFrame, []⟩)).1 = encodedFields otherFrame) ∧
    getPM_1_0 Endian.little (run Endian.little 32
      (init (new blank), ⟨specFrame ++ otherFrame, []⟩)).1 = 1 :=
  ⟨by decide, by decide, by decide, by decide,
   C1_two_frames Endian.little (new blank) ⟨specFrame ++ otherFrame, []⟩ specFrame otherFrame
     (by decide) (by decide) (by decide) (by decide) rfl,
   by decide⟩

/-- C2: in every state reachable from construction through the public operations, and for
every stream, `hasNewData()` is true after `updateFrame()` returns if and only if the driver was
initialised, the call read a byte `b`, storing it brought the write cursor to
`PMS7003_DATA_SIZE`, buffer bytes 0 and 1 are then 0x42 and 0x4D, and `isValidChecksum()` holds
after `convertSensorData()`. In every other case (not initialised, no byte available, frame
incomplete, bad marker, bad checksum) it is false. -/
theorem C2_hasNewData_iff (e : Endian) (s : Plantower_PMS7003) (st : SerialStream)
    (hr : Reachable e s) :
    hasNewData (updateFrame e s st).1 = true ↔
      s.initialized = true ∧ ∃ b rest, st.rx = b :: rest ∧
        (storeByte { s with dataReady := false } b).bufferIndex = PMS7003_DATA_SIZE ∧
        (storeByte { s with dataReady := false } b).sensorData 0 = 0x42 ∧
        (storeByte { s with dataReady := false } b).sensorData 1 = 0x4d ∧
        isValidChecksum e
          (convertSensorData e (storeByte { s with dataReady := false } b)) = true := by
  have hinv := inv_of_reachable e s hr
  unfold hasNewData
  rcases Bool.eq_false_or_eq_true s.initialized with hi | hi
  · cases hrx : st.rx with
    | nil =>
      rw [(updateFrame_idle e s st hinv hrx).2.2]
      simp
    | cons b r =>
      rw [updateFrame_cons e s st b r hi hrx]
      rw [checkFrame_dataReady e _ (storeByte_fields _ b).2.1]
      constructor
      · intro h
        exact ⟨hi, b, r, rfl, h⟩
      · rintro ⟨-, b2, r2, hbr, h⟩
        cases hbr
        exact h
  · have : updateFrame e s st = (s, st) := by simp [updateFrame, hi]
    rw [this]
    simp [hinv.1 hi, hi]

/-- C2 at a concrete state: after 31 bytes of `specFrame` the driver is reachable, and the call
that reads the last byte 0xEA raises the flag. -/
theorem C2_hasNewData_iff_witness :
    Reachable Endian.little (run Endian.little 31 (init (new blank), ⟨specFrame, []⟩)).1 ∧
    (hasNewData (updateFrame Endian.little
        (run Endian.little 31 (init (new blank), ⟨specFrame, []⟩)).1 ⟨[0xEA], []⟩).1 = true ↔
      (run Endian.little 31 (init (new blank), ⟨specFrame, []⟩)).1.initialized = true ∧
      ∃ b rest, (⟨[0xEA], []⟩ : SerialStream).rx = b :: rest ∧
        (storeByte { (run Endian.little 31 (init (new blank), ⟨specFrame, []⟩)).1 with
          dataReady := false } b).bufferIndex = PMS7003_DATA_SIZE ∧
        (storeByte { (run Endian.little 31 (init (new blank), ⟨specFrame, []⟩)).1 with
          dataReady := false } b).sensorData 0 = 0x42 ∧
        (storeByte { (run Endian.little 31 (init (new blank), ⟨specFrame, []⟩)).1 with
          dataReady := false } b).sensorData 1 = 0x4d ∧
        isValidChecksum Endian.little
          (convertSensorData Endian.little
            (storeByte { (run Endian.little 31 (init (new blank), ⟨specFrame, []⟩)).1 with
              dataReady := false } b)) = true) ∧
    hasNewData (updateFrame Endian.little
        (run Endian.little 31 (init (new blank), ⟨specFrame, []⟩)).1 ⟨[0xEA], []⟩).1 = true :=
  ⟨reachable_run _ _ _ (Reachable.init (Reachable.new blank)) 31,
   C2_hasNewData_iff Endian.little _ ⟨[0xEA], []⟩
     (reachable_run _ _ _ (Reachable.init (Reachable.new blank)) 31),
   by decide⟩

/-- C3: for every buffer of 32 bytes, `isValidChecksum()` called after `convertSensorData()`
returns true if and only if the sum of bytes 0..29, modulo 2^16, equals the big-endian 16-bit
word held in bytes 30..31 of the frame. -/
theorem C3_isValidChecksum_iff (e : Endian) (s : Plantower_PMS7003)
    (h : BufBytes s.sensorData) :
    isValidChecksum e (convertSensorData e s) = true ↔
      ((List.range 30).map s.sensorData).sum % 65536 =
        256 * s.sensorData 30 + s.sensorData 31 :=
  isValidChecksum_convertSensorData e s h

/-- C3 at the frame of the spec's scenario, on a host of either byte order. -/
theorem C3_isValidChecksum_iff_witness :
    BufBytes (withFrame blank specFrame).sensorData ∧
    (isValidChecksum Endian.big (convertSensorData Endian.big (withFrame blank specFrame)) = true ↔
      ((List.range 30).map (withFrame blank specFrame).sensorData).sum % 65536 =
        256 * (withFrame blank specFrame).sensorData 30 +
          (withFrame blank specFrame).sensorData 31) ∧
    isValidChecksum Endian.big (convertSensorData Endian.big (withFrame blank specFrame)) = true :=
  ⟨by decide, C3_isValidChecksum_iff Endian.big (withFrame blank specFrame) (by decide),
   by decide⟩

/-- C4: for every 32-byte frame in the buffer that satisfies the checksum invariant (whether or
not it starts 0x42 0x4D), after `convertSensorData()` the call `isValidChecksum()` returns true
and each of the twelve 16-bit accessors returns 256 * F[o] + F[o+1] for its wire offset
o = 2, 4, ..., 24. -/
theorem C4_decode_valid_frame (e : Endian) (s : Plantower_PMS7003)
    (h : BufBytes s.sensorData) (hc : BufChecksumOk s.sensorData) :
    isValidChecksum e (convertSensorData e s) = true ∧
    getPM_1_0 e (convertSensorData e s) = 256 * s.sensorData 2 + s.sensorData 3 ∧
    getPM_2_5 e (convertSensorData e s) = 256 * s.sensorData 4 + s.sensorData 5 ∧
    getPM_10_0 e (convertSensorData e s) = 256 * s.sensorData 6 + s.sensorData 7 ∧
    getPM_1_0_atmos e (convertSensorData e s) = 256 * s.sensorData 8 + s.sensorData 9 ∧
    getPM_2_5_atmos e (convertSensorData e s) = 256 * s.sensorData 10 + s.sensorData 11 ∧
    getPM_10_0_atmos e (convertSensorData e s) = 256 * s.sensorData 12 + s.sensorData 13 ∧
    getRawGreaterThan_0_3 e (convertSensorData e s) = 256 * s.sensorData 14 + s.sensorData 15 ∧
    getRawGreaterThan_0_5 e (convertSensorData e s) = 256 * s.sensorData 16 + s.sensorData 17 ∧
    getRawGreaterThan_1_0 e (convertSensorData e s) = 256 * s.sensorData 18 + s.sensorData 19 ∧
    getRawGreaterThan_2_5 e (convertSensorData e s) = 256 * s.sensorData 20 + s.sensorData 21 ∧
    getRawGreaterThan_5_0 e (convertSensorData e s) = 256 * s.sensorData 22 + s.sensorData 23 ∧
    getRawGreaterThan_10_0 e (convertSensorData e s) =
      256 * s.sensorData 24 + s.sensorData 25 := by
  have ha := accessors16_convertSensorData e s h
  simp only [accessors16, List.cons.injEq, and_true] at ha
  exact ⟨(isValidChecksum_convertSensorData e s h).mpr hc, ha⟩

/-- C4 at the frame of the spec's scenario on a little-endian host. -/
theorem C4_decode_valid_frame_witness :
    BufBytes (withFrame blank specFrame).sensorData ∧
    (withFrame blank specFrame).sensorData 0 = 0x42 ∧
    (withFrame blank specFrame).sensorData 1 = 0x4D ∧
    BufChecksumOk (withFrame blank specFrame).sensorData ∧
    isValidChecksum Endian.little
      (convertSensorData Endian.little (withFrame blank specFrame)) = true ∧
    getPM_1_0 Endian.little (convertSensorData Endian.little (withFrame blank specFrame)) = 1 ∧
    getRawGreaterThan_10_0 Endian.little
      (convertSensorData Endian.little (withFrame blank specFrame)) = 12 :=
  have w := C4_decode_valid_frame Endian.little (withFrame blank specFrame)
    (by decide) (by decide)
  ⟨by decide, by decide, by decide, by decide, w.1, w.2.1,
   w.2.2.2.2.2.2.2.2.2.2.2.2⟩

/-- C5, as stated, fails: after the valid `specFrame` has been decoded (`getPM_1_0()` is 1),
the candidate `badChecksumFrame` starts with the marker and fails the checksum; no call from
the 33rd to the 64th raises `hasNewData()`, and yet `getPM_1_0()` then returns 21, the value
encoded by the rejected candidate. -/
theorem C5_counterexample :
    hasNewData (run Endian.little 32
      (init (new blank), ⟨specFrame ++ badChecksumFrame, []⟩)).1 = true ∧
    getPM_1_0 Endian.little (run Endian.little 32
      (init (new blank), ⟨specFrame ++ badChecksumFrame, []⟩)).1 = 1 ∧
    (∀ k < 65, 33 ≤ k → hasNewData (run Endian.little k
      (init (new blank), ⟨specFrame ++ badChecksumFrame, []⟩)).1 = false) ∧
    getPM_1_0 Endian.little (run Endian.little 64
      (init (new blank), ⟨specFrame ++ badChecksumFrame, []⟩)).1 = 21 := by
  decide

/-- C5, amended: an invalid frame is never flagged as new data, but the accessors read the one
frame buffer that incoming bytes are written to. From a state at a frame boundary (initialised,
cursor 0, as right after a frame was validated): any number of `updateFrame()` calls that find
no byte leave all fourteen accessors unchanged; and when a complete candidate `C` that starts
with the marker, has no inner marker and fails the checksum is consumed, `hasNewData()` is false
after each of the 32 calls while the twelve 16-bit accessors end up returning the fields encoded
by `C`. -/
theorem C5_live_buffer (e : Endian) (s : Plantower_PMS7003) (idle st : SerialStream) (n : Nat)
    (C rest : List Nat) (hi : s.initialized = true) (hc : s.bufferIndex = 0)
    (hidle : idle.rx = []) (hC : MarkedFrame C) (hn : NoInnerMarker C)
    (hbad : ¬ ChecksumOk C) (hrx : st.rx = C ++ rest) :
    accessors e (run e n (s, idle)).1 = accessors e s ∧
    (∀ k, 1 ≤ k → k ≤ 32 → hasNewData (run e k (s, st)).1 = false) ∧
    accessors16 e (run e 32 (s, st)).1 = encodedFields C := by
  have hinv : Inv s := ⟨fun h => (by rw [hi] at h; cases h), fun _ => (by rw [hc]; decide)⟩
  refine ⟨accessors_congr e _ _ (run_idle e s idle hinv hidle n).2.1, fun k h1 h2 => ?_,
    accessors16_of_decoded e C _ hC (decoded_run e C rest s st hC hn hi hrx).1⟩
  have := frame_from_zero e C rest s st hC hn hi hc hrx k h1 h2
  cases hv : hasNewData (run e k (s, st)).1
  · rfl
  · exact absurd (this.mp hv).2 hbad

/-- C5, amended, at a concrete input: the state right after `specFrame` was validated, three
idle calls, and the candidate `badChecksumFrame`. -/
theorem C5_live_buffer_witness :
    (run Endian.little 32 (init (new blank), ⟨specFrame, []⟩)).1.initialized = true ∧
    (run Endian.little 32 (init (new blank), ⟨specFrame, []⟩)).1.bufferIndex = 0 ∧
    MarkedFrame badChecksumFrame ∧ NoInnerMarker badChecksumFrame ∧
    ¬ ChecksumOk badChecksumFrame ∧
    (accessors Endian.little (run Endian.little 3
        ((run Endian.little 32 (init (new blank), ⟨specFrame, []⟩)).1, ⟨[], []⟩)).1 =
      accessors Endian.little (run Endian.little 32 (init (new blank), ⟨specFrame, []⟩)).1 ∧
     (∀ k, 1 ≤ k → k ≤ 32 → hasNewData (run Endian.little k
        ((run Endian.little 32 (init (new blank), ⟨specFrame, []⟩)).1,
          ⟨badChecksumFrame, []⟩)).1 = false) ∧
     accessors16 Endian.little (run Endian.little 32
        ((run Endian.little 32 (init (new blank), ⟨specFrame, []⟩)).1,
          ⟨badChecksumFrame, []⟩)).1 = encodedFields badChecksumFrame) :=
  ⟨by decide, by decide, by decide, by decide, by decide,
   C5_live_buffer Endian.little _ ⟨[], []⟩ ⟨badChecksumFrame, []⟩ 3 badChecksumFrame []
     (by decide) (by decide) rfl (by decide) (by decide) (by decide) rfl⟩

set_option maxRecDepth 100000 in
/-- C6, as stated, fails: with the valid frames `specFrame` and `innerMarkerFrame` and the
spurious byte 0 between them, no call up to the 65th, the last that finds a byte, leaves
`hasNewData()` true with the accessors returning the fields of the second frame. -/
theorem C6_counterexample :
    ValidFrame specFrame ∧ ValidFrame innerMarkerFrame ∧
    ∀ k < 66, ¬ (hasNewData (run Endian.little k
        (init (new blank), ⟨specFrame ++ 0 :: innerMarkerFrame, []⟩)).1 = true ∧
      accessors16 Endian.little (run Endian.little k
        (init (new blank), ⟨specFrame ++ 0 :: innerMarkerFrame, []⟩)).1 =
        encodedFields innerMarkerFrame) := by
  decide

/-- C6, amended: for checksum-valid frames `F1`, `F2`, where in `F2` no 0x42 is immediately
followed by 0x4D at an offset from 2 on, and every byte `b`: feeding `F1`, then `b`, then `F2`
one byte per `updateFrame()` call to a freshly `init()`-ed driver leaves `hasNewData()` true
after the 65th call, the one that consumes the last byte of `F2`, with the twelve 16-bit
accessors returning the fields encoded by `F2`. -/
theorem C6_recover_after_spurious_byte (e : Endian) (u : Plantower_PMS7003)
    (st : SerialStream) (F1 F2 : List Nat) (b : Nat) (h1 : ValidFrame F1) (h2 : ValidFrame F2)
    (n2 : NoInnerMarker F2) (hrx : st.rx = F1 ++ b :: F2) :
    hasNewData (run e 65 (init u, st)).1 = true ∧
    accessors16 e (run e 65 (init u, st)).1 = encodedFields F2 := by
  have hlen : F1.length = 32 := h1.1.1
  obtain ⟨i33, r33⟩ := run_rx e (init u) st rfl 33 (by rw [hrx]; simp [hlen, h2.1.1])
  have hdrop : (run e 33 (init u, st)).2.rx = F2 ++ [] := by
    rw [r33, hrx, List.append_nil, List.drop_append_eq_append_drop, hlen,
      List.drop_of_length_le (by omega)]
    rfl
  obtain ⟨d2, -⟩ := decoded_run e F2 [] (run e 33 (init u, st)).1 (run e 33 (init u, st)).2
    h2.1 n2 i33 hdrop
  have split : run e (33 + 32) (init u, st) =
      run e 32 ((run e 33 (init u, st)).1, (run e 33 (init u, st)).2) := run_add e 33 32 _
  rw [show (65 : Nat) = 33 + 32 from rfl, split]
  exact ⟨d2.2.2.2.1.mpr h2.2, accessors16_of_decoded e F2 _ h2.1 d2⟩

/-- C6, amended, at a concrete input: `specFrame`, the byte 0x4D, `otherFrame`. -/
theorem C6_recover_after_spurious_byte_witness :
    ValidFrame specFrame ∧ ValidFrame otherFrame ∧ NoInnerMarker otherFrame ∧
    hasNewData (run Endian.little 65
      (init (new blank), ⟨specFrame ++ 0x4D :: otherFrame, []⟩)).1 = true ∧
    accessors16 Endian.little (run Endian.little 65
      (init (new blank), ⟨specFrame ++ 0x4D :: otherFrame, []⟩)).1 = encodedFields otherFrame :=
  ⟨by decide, by decide, by decide,
   C6_recover_after_spurious_byte Endian.little (new blank)
     ⟨specFrame ++ 0x4D :: otherFrame, []⟩ specFrame otherFrame 0x4D
     (by decide) (by decide) (by decide) rfl⟩

/-- C7: for every frame in the buffer that satisfies the checksum invariant, every index `i` in
0..29 and every byte `b` other than the one at `i`, the frame with byte `i` replaced by `b`
(checksum bytes untouched) makes `isValidChecksum()` return false: the sum of thirty bytes is at
most 7650, so a single changed byte always changes the 16-bit sum. -/
theorem C7_single_byte_corruption (e : Endian) (s : Plantower_PMS7003) (i b : Nat)
    (h : BufBytes s.sensorData) (hc : BufChecksumOk s.sensorData) (hi : i < 30)
    (hb : b < 256) (hne : b ≠ s.sensorData i) :
    isValidChecksum e
      (convertSensorData e { s with sensorData := setByte s.sensorData i b }) = false := by
  have hbytes : BufBytes (setByte s.sensorData i b) := by
    intro j hj
    unfold setByte
    split_ifs
    · exact hb
    · exact h j hj
  cases hv : isValidChecksum e
      (convertSensorData e { s with sensorData := setByte s.sensorData i b })
  · rfl
  · exfalso
    have hc2 := (isValidChecksum_convertSensorData e
      { s with sensorData := setByte s.sensorData i b } hbytes).mp hv
    unfold BufChecksumOk at hc hc2
    simp only at hc2
    have e30 : setByte s.sensorData i b 30 = s.sensorData 30 := by
      unfold setByte; rw [if_neg (by omega)]
    have e31 : setByte s.sensorData i b 31 = s.sensorData 31 := by
      unfold setByte; rw [if_neg (by omega)]
    rw [e30, e31] at hc2
    have hs := sum_setByte s.sensorData i b 30
    simp only [if_pos hi] at hs
    have l1 := sum_le s.sensorData 30 (fun j hj => h j (by omega))
    have l2 := sum_le (setByte s.sensorData i b) 30 (fun j hj => hbytes j (by omega))
    omega

/-- C7 at a concrete input: byte 5 of `specFrame` changed from 2 to 3. -/
theorem C7_single_byte_corruption_witness :
    BufBytes (withFrame blank specFrame).sensorData ∧
    BufChecksumOk (withFrame blank specFrame).sensorData ∧
    (3 : Nat) ≠ (withFrame blank specFrame).sensorData 5 ∧
    isValidChecksum Endian.little
      (convertSensorData Endian.little
        { withFrame blank specFrame with
          sensorData := setByte (withFrame blank specFrame).sensorData 5 3 }) = false :=
  ⟨by decide, by decide, by decide,
   C7_single_byte_corruption Endian.little (withFrame blank specFrame) 5 3
     (by decide) (by decide) (by decide) (by decide) (by decide)⟩

/-- C8: `requestRead()` writes nothing when the tracked mode is ACTIVE and appends exactly the
seven bytes 0x42 0x4D 0xE2 0x00 0x00 0x01 0x71 when it is PASSIVE; in both cases the driver,
its mode included, and the unread input are as before. -/
theorem C8_requestRead (s : Plantower_PMS7003) (st : SerialStream) :
    (s._mode = Mode.MODE_ACTIVE → requestRead s st = (s, st)) ∧
    (s._mode = Mode.MODE_PASSIVE →
      requestRead s st =
        (s, { rx := st.rx, tx := st.tx ++ [0x42, 0x4D, 0xE2, 0x00, 0x00, 0x01, 0x71] })) := by
  constructor
  · intro h
    simp [requestRead, h]
  · intro h
    simp [requestRead, h, SerialStream.write]

/-- C8 at concrete inputs: a constructed driver (mode ACTIVE), and the same driver after
`passiveMode()`, each on a stream on which the byte 9 was written before. -/
theorem C8_requestRead_witness :
    (new blank)._mode = Mode.MODE_ACTIVE ∧
    (passiveMode (new blank) ⟨[], []⟩).1._mode = Mode.MODE_PASSIVE ∧
    (requestRead (new blank) ⟨[5], [9]⟩).2.tx = [9] ∧
    (requestRead (passiveMode (new blank) ⟨[], []⟩).1 ⟨[5], [9]⟩).2.tx =
      [9, 0x42, 0x4D, 0xE2, 0x00, 0x00, 0x01, 0x71] ∧
    (requestRead (passiveMode (new blank) ⟨[], []⟩).1 ⟨[5], [9]⟩).1._mode =
      Mode.MODE_PASSIVE :=
  ⟨rfl, rfl,
   congrArg (fun c => c.2.tx) ((C8_requestRead (new blank) ⟨[5], [9]⟩).1 rfl),
   congrArg (fun c => c.2.tx)
     ((C8_requestRead (passiveMode (new blank) ⟨[], []⟩).1 ⟨[5], [9]⟩).2 rfl),
   congrArg (fun c => c.1._mode)
     ((C8_requestRead (passiveMode (new blank) ⟨[], []⟩).1 ⟨[5], [9]⟩).2 rfl)⟩

/-- C9: on a driver whose `initialized` flag is false, as the constructor leaves it until
`init()` is called, `updateFrame()` consumes no byte and returns the driver and the stream
exactly as they were. -/
theorem C9_updateFrame_before_init (e : Endian) (s : Plantower_PMS7003) (st : SerialStream)
    (h : s.initialized = false) : updateFrame e s st = (s, st) := by
  simp [updateFrame, h]

/-- C9 at a concrete input: a constructed driver and a stream with three bytes waiting. -/
theorem C9_updateFrame_before_init_witness :
    (new blank).initialized = false ∧
    updateFrame Endian.little (new blank) ⟨[0x42, 0x4D, 7], []⟩ =
      (new blank, ⟨[0x42, 0x4D, 7], []⟩) :=
  ⟨rfl, C9_updateFrame_before_init Endian.little (new blank) ⟨[0x42, 0x4D, 7], []⟩ rfl⟩

/-- C10, as stated, fails: offset 31 is out of range and offset 2 is in range, and on a buffer
whose bytes 2 and 3 are both 0xFF the in-range call returns the very value, 0xFFFF, that the
out-of-range call returns. -/
theorem C10_counterexample :
    ((31 : Int) > (PMS7003_DATA_SIZE : Int) - 2 ∨ (31 : Int) < 2) ∧
    ¬ ((2 : Int) > (PMS7003_DATA_SIZE : Int) - 2 ∨ (2 : Int) < 2) ∧
    uint16FromBufferData (fun _ => 0) 31 = uint16FromBufferData (fun _ => 0xFF) 2 := by
  decide

/-- C10, amended: for every out-of-range offset `uint16FromBufferData` returns 0xFFFF, and an
in-range call returns that same value exactly when both bytes at its offset are 0xFF; it
differs from every other in-range result. -/
theorem C10_sentinel (buff other : PMS7003_DATABUF) (loc oloc : Int)
    (hout : oloc > (PMS7003_DATA_SIZE : Int) - 2 ∨ oloc < 2)
    (hin : 2 ≤ loc ∧ loc ≤ (PMS7003_DATA_SIZE : Int) - 2)
    (h0 : buff loc.toNat < 256) (h1 : buff (loc.toNat + 1) < 256) :
    uint16FromBufferData other oloc = 0xFFFF ∧
    (uint16FromBufferData buff loc = uint16FromBufferData other oloc ↔
      buff loc.toNat = 0xFF ∧ buff (loc.toNat + 1) = 0xFF) := by
  have ho : uint16FromBufferData other oloc = 0xFFFF := by
    unfold uint16FromBufferData
    rw [if_pos hout]
    rfl
  have hi : uint16FromBufferData buff loc =
      (buff loc.toNat * 256 + buff (loc.toNat + 1)) % 65536 := by
    unfold uint16FromBufferData
    rw [if_neg (by omega)]
  refine ⟨ho, ?_⟩
  rw [ho, hi]
  omega

/-- C10, amended, at concrete inputs: offset -1 against offset 4 of a zero buffer. -/
theorem C10_sentinel_witness :
    ((-1 : Int) > (PMS7003_DATA_SIZE : Int) - 2 ∨ (-1 : Int) < 2) ∧
    ((2 : Int) ≤ 4 ∧ (4 : Int) ≤ (PMS7003_DATA_SIZE : Int) - 2) ∧
    uint16FromBufferData (fun _ => 7) (-1) = 0xFFFF ∧
    (uint16FromBufferData (fun _ => 0) 4 = uint16FromBufferData (fun _ => 7) (-1) ↔
      (fun _ => 0 : PMS7003_DATABUF) (4 : Int).toNat = 0xFF ∧
      (fun _ => 0 : PMS7003_DATABUF) ((4 : Int).toNat + 1) = 0xFF) :=
  ⟨by decide, by decide,
   C10_sentinel (fun _ => 0) (fun _ => 7) 4 (-1) (by decide) (by decide) (by decide)
     (by decide)⟩

/-- C11: the mode of a constructed driver is ACTIVE and stays so through `init()` and any number
of `updateFrame()` calls, none of which writes to the stream; `requestRead()` then writes zero
bytes and changes nothing. -/
theorem C11_initial_mode (e : Endian) (u : Plantower_PMS7003) (st : SerialStream) (n : Nat) :
    (new u)._mode = Mode.MODE_ACTIVE ∧ (init (new u))._mode = Mode.MODE_ACTIVE ∧
    requestRead (init (new u)) st = (init (new u), st) ∧
    (run e n (init (new u), st)).1._mode = Mode.MODE_ACTIVE ∧
    (run e n (init (new u), st)).2.tx = st.tx ∧
    requestRead (run e n (init (new u), st)).1 (run e n (init (new u), st)).2 =
      run e n (init (new u), st) := by
  have hm := run_mode e n (init (new u), st)
  have ha : (run e n (init (new u), st)).1._mode = Mode.MODE_ACTIVE := hm.1
  refine ⟨rfl, rfl, rfl, ha, hm.2, ?_⟩
  simp [requestRead, ha]

/-- C12: `activeMode()` appends 0x42 0x4D 0xE1 0x00 0x01 0x01 0x71 to the stream and sets the
mode to ACTIVE, `passiveMode()` appends 0x42 0x4D 0xE1 0x00 0x00 0x01 0x70 and sets it to
PASSIVE; `init`, `updateFrame`, `sleep`, `wakeUp` and `requestRead` leave the mode as it was
(the accessors only return a value); and the two mode commands leave `dataReady`, the cursor,
the last byte and the frame buffer as they were. -/
theorem C12_mode_changes (e : Endian) (s : Plantower_PMS7003) (st : SerialStream) :
    activeMode s st =
      ({ s with _mode := Mode.MODE_ACTIVE },
       { rx := st.rx, tx := st.tx ++ [0x42, 0x4D, 0xE1, 0x00, 0x01, 0x01, 0x71] }) ∧
    passiveMode s st =
      ({ s with _mode := Mode.MODE_PASSIVE },
       { rx := st.rx, tx := st.tx ++ [0x42, 0x4D, 0xE1, 0x00, 0x00, 0x01, 0x70] }) ∧
    (init s)._mode = s._mode ∧ (updateFrame e s st).1._mode = s._mode ∧
    (sleep s st).1._mode = s._mode ∧ (wakeUp s st).1._mode = s._mode ∧
    (requestRead s st).1._mode = s._mode ∧
    ((activeMode s st).1.dataReady = s.dataReady ∧
      (activeMode s st).1.bufferIndex = s.bufferIndex ∧
      (activeMode s st).1.lastByte = s.lastByte ∧
      (activeMode s st).1.sensorData = s.sensorData) ∧
    ((passiveMode s st).1.dataReady = s.dataReady ∧
      (passiveMode s st).1.bufferIndex = s.bufferIndex ∧
      (passiveMode s st).1.lastByte = s.lastByte ∧
      (passiveMode s st).1.sensorData = s.sensorData) := by
  refine ⟨rfl, rfl, rfl, (updateFrame_mode e s st).1, rfl, rfl, ?_, ⟨rfl, rfl, rfl, rfl⟩,
    ⟨rfl, rfl, rfl, rfl⟩⟩
  unfold requestRead
  split_ifs <;> rfl

/-- C13, as stated, fails: `versionFrame` is checksum-valid, its byte 26 is 0x00 and its byte
27 is 0x1C, and after it is decoded `getHWVersion()` returns 0x97 and `getErrorCode()` returns
0x05, the bytes at offsets 28 and 29, on a host of either byte order. -/
theorem C13_counterexample :
    ValidFrame versionFrame ∧ byteAt versionFrame 26 = 0x00 ∧ byteAt versionFrame 27 = 0x1C ∧
    hasNewData (run Endian.little 32 (init (new blank), ⟨versionFrame, []⟩)).1 = true ∧
    getHWVersion (run Endian.little 32 (init (new blank), ⟨versionFrame, []⟩)).1 = 0x97 ∧
    getErrorCode (run Endian.little 32 (init (new blank), ⟨versionFrame, []⟩)).1 = 0x05 ∧
    hasNewData (run Endian.big 32 (init (new blank), ⟨versionFrame, []⟩)).1 = true ∧
    getHWVersion (run Endian.big 32 (init (new blank), ⟨versionFrame, []⟩)).1 = 0x97 ∧
    getErrorCode (run Endian.big 32 (init (new blank), ⟨versionFrame, []⟩)).1 = 0x05 := by
  decide

/-- C13, amended: for a checksum-valid frame `F` without inner marker decoded by
`updateFrame()`, `getHWVersion()` returns the single byte `F[28]` and `getErrorCode()` the
single byte `F[29]`: the two one-byte fields sit in the word that `convertSensorData` skips
and are read back as received, undisturbed by the conversion of the 13 words in bytes 2..27,
whatever the byte order of the host. -/
theorem C13_one_byte_fields (e : Endian) (s : Plantower_PMS7003) (st : SerialStream)
    (F rest : List Nat) (hi : s.initialized = true) (hF : ValidFrame F)
    (hn : NoInnerMarker F) (hrx : st.rx = F ++ rest) :
    hasNewData (run e 32 (s, st)).1 = true ∧
    getHWVersion (run e 32 (s, st)).1 = byteAt F 28 ∧
    getErrorCode (run e 32 (s, st)).1 = byteAt F 29 := by
  have hd := (decoded_run e F rest s st hF.1 hn hi hrx).1
  exact ⟨hd.2.2.2.1.mpr hF.2, decoded_one_byte_fields e F _ hd⟩

/-- C13, amended, at a concrete input: `versionFrame` fed to a driver caught mid-frame, on a
host of either byte order. -/
theorem C13_one_byte_fields_witness :
    midFrame.initialized = true ∧ ValidFrame versionFrame ∧ NoInnerMarker versionFrame ∧
    (hasNewData (run Endian.little 32 (midFrame, ⟨versionFrame ++ [1], []⟩)).1 = true ∧
     getHWVersion (run Endian.little 32 (midFrame, ⟨versionFrame ++ [1], []⟩)).1 =
       byteAt versionFrame 28 ∧
     getErrorCode (run Endian.little 32 (midFrame, ⟨versionFrame ++ [1], []⟩)).1 =
       byteAt versionFrame 29) ∧
    getHWVersion (run Endian.big 32 (midFrame, ⟨versionFrame ++ [1], []⟩)).1 = 0x97 :=
  ⟨rfl, by decide, by decide,
   C13_one_byte_fields Endian.little midFrame ⟨versionFrame ++ [1], []⟩ versionFrame [1] rfl
     (by decide) (by decide) rfl,
   (C13_one_byte_fields Endian.big midFrame ⟨versionFrame ++ [1], []⟩ versionFrame [1] rfl
     (by decide) (by decide) rfl).2.1⟩

/-- C14: from every initialised state, whatever its cursor, buffer and last byte, feeding the
32 bytes of a checksum-valid frame `F` that starts 0x42 0x4D and has no 0x42 immediately
followed by 0x4D at an offset from 2 on, one byte per `updateFrame()` call, gives
`hasNewData()` false after each of the calls 2..31 and true after the 32nd, the twelve 16-bit
accessors then returning the big-endian fields of `F`. -/
theorem C14_resynchronisation (e : Endian) (s : Plantower_PMS7003) (st : SerialStream)
    (F rest : List Nat) (hi : s.initialized = true) (hF : ValidFrame F)
    (hn : NoInnerMarker F) (hrx : st.rx = F ++ rest) :
    (∀ k, 2 ≤ k → k ≤ 31 → hasNewData (run e k (s, st)).1 = false) ∧
    hasNewData (run e 32 (s, st)).1 = true ∧
    accessors16 e (run e 32 (s, st)).1 = encodedFields F := by
  have hd := (decoded_run e F rest s st hF.1 hn hi hrx).1
  refine ⟨fun k h1 h2 => ?_, hd.2.2.2.1.mpr hF.2, accessors16_of_decoded e F _ hF.1 hd⟩
  exact (buffered_run e F rest s st hF.1 hn hi hrx k h1 h2).1.2.1

/-- C14 at a concrete input: a driver with its cursor at 17 and last byte 0x42, fed
`otherFrame`. -/
theorem C14_resynchronisation_witness :
    midFrame.initialized = true ∧ ValidFrame otherFrame ∧ NoInnerMarker otherFrame ∧
    (∀ k, 2 ≤ k → k ≤ 31 →
      hasNewData (run Endian.little k (midFrame, ⟨otherFrame, []⟩)).1 = false) ∧
    hasNewData (run Endian.little 32 (midFrame, ⟨otherFrame, []⟩)).1 = true ∧
    accessors16 Endian.little (run Endian.little 32 (midFrame, ⟨otherFrame, []⟩)).1 =
      encodedFields otherFrame :=
  ⟨rfl, by decide, by decide,
   C14_resynchronisation Endian.little midFrame ⟨otherFrame, []⟩ otherFrame [] rfl
     (by decide) (by decide) (List.append_nil _).symm⟩

/-- C15: in every state reached after `init()`, with `h` the bytes read since, the cursor is at
most the number of bytes read and the first `bufferIndex` cells of the frame buffer are exactly
the last `bufferIndex` bytes read, in order; and whenever `updateFrame()` leaves
`hasNewData()` true it has read a byte, at least 32 bytes have been read, and the 32 most
recent ones start with 0x42 0x4D and have the sum of their bytes 0..29 in their bytes 30..31,
big-endian. -/
theorem C15_ready_flag_sound (e : Endian) (s : Plantower_PMS7003) (h : List Nat)
    (st : SerialStream) (hr : ReadSinceInit e s h) (hst : ∀ b ∈ st.rx, b < 256) :
    s.bufferIndex ≤ h.length ∧
    (List.range s.bufferIndex).map s.sensorData = h.drop (h.length - s.bufferIndex) ∧
    (hasNewData (updateFrame e s st).1 = true →
      ∃ b r, st.rx = b :: r ∧ 32 ≤ (h ++ [b]).length ∧
        ValidFrame ((h ++ [b]).drop ((h ++ [b]).length - 32))) := by
  obtain ⟨ht, hlt⟩ := tracks_of_readSinceInit e s h hr
  refine ⟨ht.2.2.1, tracks_prefix s h ht, fun hnew => ?_⟩
  unfold hasNewData at hnew
  cases hrx : st.rx with
  | nil =>
    have hinv : Inv s := ⟨fun hf => (by rw [ht.1] at hf; cases hf), fun _ => hlt⟩
    rw [(updateFrame_idle e s st hinv hrx).2.2] at hnew
    cases hnew
  | cons b r =>
    have hb : b < 256 := hst b (by rw [hrx]; exact List.mem_cons_self b r)
    rw [updateFrame_cons e s st b r ht.1 hrx,
      checkFrame_dataReady e _ (storeByte_fields _ b).2.1] at hnew
    obtain ⟨hc, h0, h1, hv⟩ := hnew
    have htm := tracks_storeByte s h b ht hb
    obtain ⟨flen, fbytes, fbuf⟩ := frame_of_tracks _ _ htm hc
    have hlen : 32 ≤ (h ++ [b]).length := by
      have := htm.2.2.1
      rw [hc] at this
      exact this
    refine ⟨b, r, rfl, hlen, ⟨flen, fbytes, ?_, ?_⟩, ?_⟩
    · rw [← fbuf 0 (by omega)]; exact h0
    · rw [← fbuf 1 (by omega)]; exact h1
    · have hbb := bufBytes_of_frame _ _ fbytes fbuf
      exact (bufChecksumOk_of_frame _ _ flen fbuf).mp
        ((isValidChecksum_convertSensorData e _ hbb).mp hv)

/-- C15 at a concrete input: the driver after the first 31 bytes of `specFrame`, about to read
the last one. -/
theorem C15_ready_flag_sound_witness :
    ReadSinceInit Endian.little (run Endian.little 31 (init (new blank), ⟨specFrame, []⟩)).1
      ([] ++ specFrame.take 31) ∧
    (∀ b ∈ (⟨[0xEA], []⟩ : SerialStream).rx, b < 256) ∧
    ((run Endian.little 31 (init (new blank), ⟨specFrame, []⟩)).1.bufferIndex ≤
        ([] ++ specFrame.take 31).length ∧
      (List.range (run Endian.little 31 (init (new blank), ⟨specFrame, []⟩)).1.bufferIndex).map
          (run Endian.little 31 (init (new blank), ⟨specFrame, []⟩)).1.sensorData =
        ([] ++ specFrame.take 31).drop (([] ++ specFrame.take 31).length -
          (run Endian.little 31 (init (new blank), ⟨specFrame, []⟩)).1.bufferIndex) ∧
      (hasNewData (updateFrame Endian.little
          (run Endian.little 31 (init (new blank), ⟨specFrame, []⟩)).1 ⟨[0xEA], []⟩).1 = true →
        ∃ b r, (⟨[0xEA], []⟩ : SerialStream).rx = b :: r ∧
          32 ≤ (([] ++ specFrame.take 31) ++ [b]).length ∧
          ValidFrame ((([] ++ specFrame.take 31) ++ [b]).drop
            ((([] ++ specFrame.take 31) ++ [b]).length - 32)))) ∧
    hasNewData (updateFrame Endian.little
      (run Endian.little 31 (init (new blank), ⟨specFrame, []⟩)).1 ⟨[0xEA], []⟩).1 = true :=
  ⟨(readSinceInit_run Endian.little _ [] ⟨specFrame, []⟩ (ReadSinceInit.init (new blank))
      (by decide) 31 (by decide)).1,
   by decide,
   C15_ready_flag_sound Endian.little _ _ ⟨[0xEA], []⟩
     (readSinceInit_run Endian.little _ [] ⟨specFrame, []⟩ (ReadSinceInit.init (new blank))
       (by decide) 31 (by decide)).1 (by decide),
   by decide⟩

/-- C16: the frame check resets a cursor that has reached `PMS7003_DATA_SIZE` to 0 whatever the
candidate was (bad marker, bad checksum or valid); hence for every initialised state reachable
from construction and every stream, the cursor after `updateFrame()` is below 32, and for
every byte read the index of the write `sensorData.bytes[bufferIndex] = nextByte`, which is
the cursor value just before the increment, is below 32. -/
theorem C16_cursor_in_bounds (e : Endian) (s : Plantower_PMS7003) (st : SerialStream)
    (hr : Reachable e s) (hi : s.initialized = true) :
    (∀ m : Plantower_PMS7003, m.bufferIndex = PMS7003_DATA_SIZE →
      (checkFrame e m).bufferIndex = 0) ∧
    (updateFrame e s st).1.bufferIndex < PMS7003_DATA_SIZE ∧
    ∀ b, storeIndex { s with dataReady := false } b < PMS7003_DATA_SIZE ∧
      (storeByte { s with dataReady := false } b).bufferIndex =
        storeIndex { s with dataReady := false } b + 1 ∧
      (storeByte { s with dataReady := false } b).sensorData
        (storeIndex { s with dataReady := false } b) = b % 256 := by
  have hinv := inv_of_reachable e s hr
  have hlt := hinv.2 hi
  refine ⟨fun m hm => checkFrame_reset e m hm, (inv_updateFrame e s st hinv).2 ?_, fun b => ?_⟩
  · rw [updateFrame_initialized]; exact hi
  · have hsi := storeByte_storeIndex { s with dataReady := false } b
    refine ⟨?_, hsi.1, hsi.2.1⟩
    unfold storeIndex
    split_ifs
    · decide
    · exact hlt

/-- C16 at a concrete input: the driver after 31 bytes of `specFrame`, cursor at 31. -/
theorem C16_cursor_in_bounds_witness :
    Reachable Endian.little (run Endian.little 31 (init (new blank), ⟨specFrame, []⟩)).1 ∧
    (run Endian.little 31 (init (new blank), ⟨specFrame, []⟩)).1.initialized = true ∧
    (run Endian.little 31 (init (new blank), ⟨specFrame, []⟩)).1.bufferIndex = 31 ∧
    (updateFrame Endian.little (run Endian.little 31 (init (new blank), ⟨specFrame, []⟩)).1
      ⟨[0xEA], []⟩).1.bufferIndex < PMS7003_DATA_SIZE :=
  ⟨reachable_run _ _ _ (Reachable.init (Reachable.new blank)) 31, by decide, by decide,
   (C16_cursor_in_bounds Endian.little _ ⟨[0xEA], []⟩
     (reachable_run _ _ _ (Reachable.init (Reachable.new blank)) 31) (by decide)).2.1⟩

/-- C17: for every initialised state and every byte `b` that `updateFrame()` reads. If `b` is
0x4D and the last byte was 0x42 then, whatever the cursor was, after the call buffer byte 0 is
0x42, byte 1 is 0x4D, the cursor is 2, the last byte is 0x4D and `hasNewData()` is false.
Otherwise the store step puts `b` at the old cursor position and nowhere else, advances the
cursor by one and makes `b` the last byte; the call returns that state after the frame check,
with `b` as last byte, and returns it unchanged unless the cursor has reached
`PMS7003_DATA_SIZE`. -/
theorem C17_marker_detection (e : Endian) (s : Plantower_PMS7003) (st : SerialStream)
    (b : Nat) (r : List Nat) (hi : s.initialized = true) (hrx : st.rx = b :: r)
    (hb : b < 256) :
    (b = 0x4D ∧ s.lastByte = 0x42 →
      (updateFrame e s st).1.sensorData 0 = 0x42 ∧
      (updateFrame e s st).1.sensorData 1 = 0x4D ∧
      (updateFrame e s st).1.bufferIndex = 2 ∧
      (updateFrame e s st).1.lastByte = 0x4D ∧
      hasNewData (updateFrame e s st).1 = false) ∧
    (¬ (b = 0x4D ∧ s.lastByte = 0x42) →
      (storeByte { s with dataReady := false } b).sensorData s.bufferIndex = b ∧
      (∀ j, j ≠ s.bufferIndex →
        (storeByte { s with dataReady := false } b).sensorData j = s.sensorData j) ∧
      (storeByte { s with dataReady := false } b).bufferIndex = s.bufferIndex + 1 ∧
      (storeByte { s with dataReady := false } b).lastByte = b ∧
      (updateFrame e s st).1 = checkFrame e (storeByte { s with dataReady := false } b) ∧
      (updateFrame e s st).1.lastByte = b ∧
      (s.bufferIndex + 1 ≠ PMS7003_DATA_SIZE →
        (updateFrame e s st).1 = storeByte { s with dataReady := false } b)) := by
  have hmod : b % 256 = b := Nat.mod_eq_of_lt hb
  have hu := updateFrame_cons e s st b r hi hrx
  constructor
  · rintro ⟨h4, h2⟩
    rw [hu, storeByte_marker { s with dataReady := false } b (by rw [hmod]; exact h4) h2,
      checkFrame_incomplete _ _ (by simp [PMS7003_DATA_SIZE])]
    exact ⟨by simp [setByte], by simp [setByte], rfl, rfl, rfl⟩
  · intro hnm
    have hnm2 : ¬ (b % 256 = 0x4d ∧
        ({ s with dataReady := false } : Plantower_PMS7003).lastByte = 0x42) := by
      rw [hmod]; exact hnm
    have hsb := storeByte_plain { s with dataReady := false } b hnm2
    have hl : (storeByte { s with dataReady := false } b).lastByte = b := by
      rw [(storeByte_fields _ b).2.2.1]; exact hmod
    refine ⟨?_, ?_, ?_, hl, ?_, ?_, ?_⟩
    · rw [hsb]; simp [setByte, hmod]
    · intro j hj
      rw [hsb]; simp [setByte, hj]
    · rw [hsb]
    · rw [hu]
    · rw [hu, (checkFrame_fields e _).2.1]; exact hl
    · intro hc
      rw [hu, checkFrame_incomplete e _ (by rw [hsb]; exact hc)]

/-- C17 at concrete inputs: a driver with cursor 17 and last byte 0x42 reads 0x4D (marker
completion), and reads 9 (plain store at position 17). -/
theorem C17_marker_detection_witness :
    midFrame.initialized = true ∧ midFrame.lastByte = 0x42 ∧ midFrame.bufferIndex = 17 ∧
    ((updateFrame Endian.little midFrame ⟨[0x4D], []⟩).1.sensorData 0 = 0x42 ∧
      (updateFrame Endian.little midFrame ⟨[0x4D], []⟩).1.sensorData 1 = 0x4D ∧
      (updateFrame Endian.little midFrame ⟨[0x4D], []⟩).1.bufferIndex = 2 ∧
      (updateFrame Endian.little midFrame ⟨[0x4D], []⟩).1.lastByte = 0x4D ∧
      hasNewData (updateFrame Endian.little midFrame ⟨[0x4D], []⟩).1 = false) ∧
    (updateFrame Endian.little midFrame ⟨[9], []⟩).1.lastByte = 9 ∧
    (updateFrame Endian.little midFrame ⟨[9], []⟩).1.sensorData 17 = 9 ∧
    (updateFrame Endian.little midFrame ⟨[9], []⟩).1.bufferIndex = 18 :=
  ⟨rfl, rfl, rfl,
   (C17_marker_detection Endian.little midFrame ⟨[0x4D], []⟩ 0x4D [] rfl rfl (by decide)).1
     ⟨rfl, rfl⟩,
   ((C17_marker_detection Endian.little midFrame ⟨[9], []⟩ 9 [] rfl rfl (by decide)).2
     (by decide)).2.2.2.2.2.1,
   by decide, by decide⟩

/-- C18: on a buffer of bytes and for an offset `loc` with 2 <= loc <= 30,
`uint16FromBufferData` returns 256 * buff[loc] + buff[loc+1], which is also
(buff[loc] << 8) | buff[loc+1]; both indices are inside the 32-byte buffer and the result
depends on no other cell. For `loc < 2` or `loc > 30` it returns 0xFFFF whatever the buffer
holds. -/
theorem C18_uint16FromBufferData (buff : PMS7003_DATABUF) (loc : Int) (hb : BufBytes buff) :
    (2 ≤ loc ∧ loc ≤ (PMS7003_DATA_SIZE : Int) - 2 →
      uint16FromBufferData buff loc = 256 * buff loc.toNat + buff (loc.toNat + 1) ∧
      uint16FromBufferData buff loc = (buff loc.toNat <<< 8) ||| buff (loc.toNat + 1) ∧
      loc.toNat + 1 < PMS7003_DATA_SIZE ∧
      ∀ other : PMS7003_DATABUF, other loc.toNat = buff loc.toNat →
        other (loc.toNat + 1) = buff (loc.toNat + 1) →
        uint16FromBufferData other loc = uint16FromBufferData buff loc) ∧
    (loc < 2 ∨ loc > (PMS7003_DATA_SIZE : Int) - 2 →
      ∀ other : PMS7003_DATABUF, uint16FromBufferData other loc = 0xFFFF) := by
  constructor
  · intro hin
    have hsz : (PMS7003_DATA_SIZE : Int) = 32 := rfl
    rw [hsz] at hin
    have hn : loc.toNat + 1 < 32 := by omega
    have h0 := hb loc.toNat (by omega)
    have h1 := hb (loc.toNat + 1) hn
    have hval : ∀ d : PMS7003_DATABUF, uint16FromBufferData d loc =
        (d loc.toNat * 256 + d (loc.toNat + 1)) % 65536 := by
      intro d
      unfold uint16FromBufferData
      rw [if_neg (by rw [hsz]; omega)]
    have hex : uint16FromBufferData buff loc = 256 * buff loc.toNat + buff (loc.toNat + 1) := by
      rw [hval]; omega
    refine ⟨hex, ?_, hn, fun other e0 e1 => ?_⟩
    · rw [hex, shiftLeft_or_eq _ _ h1]
    · rw [hval, hval, e0, e1]
  · intro hout other
    unfold uint16FromBufferData
    rw [if_pos (by omega)]
    rfl

/-- C18 at concrete inputs: offset 4 and offset 31 of the buffer holding `specFrame`. -/
theorem C18_uint16FromBufferData_witness :
    BufBytes (byteAt specFrame) ∧
    uint16FromBufferData (byteAt specFrame) 4 = 2 ∧
    uint16FromBufferData (byteAt specFrame) 31 = 0xFFFF :=
  ⟨by decide,
   (((C18_uint16FromBufferData (byteAt specFrame) 4 (by decide)).1 (by decide)).1.trans
     (by decide)),
   (C18_uint16FromBufferData (byteAt specFrame) 31 (by decide)).2 (by decide) _⟩

/-- C19: on a buffer of bytes the 16-bit accumulator of `isValidChecksum` never wraps: after
every number n <= 30 of iterations it holds the exact sum of bytes 0..n-1, at the end at most
7650; so `isValidChecksum()` is false whenever `values.checksum` exceeds 7650, and a frame
whose bytes 30..31 encode a word above 7650 fails the check after `convertSensorData()`. -/
theorem C19_accumulator_never_wraps (e : Endian) (s : Plantower_PMS7003)
    (h : BufBytes s.sensorData) :
    (∀ n, n ≤ PMS7003_DATA_SIZE - 2 →
      checksumLoop s.sensorData n = ((List.range n).map s.sensorData).sum) ∧
    checksumLoop s.sensorData (PMS7003_DATA_SIZE - 2) ≤ 30 * 255 ∧
    (30 * 255 < values_checksum e s.sensorData → isValidChecksum e s = false) ∧
    (30 * 255 < 256 * s.sensorData 30 + s.sensorData 31 →
      isValidChecksum e (convertSensorData e s) = false) := by
  have hsz : PMS7003_DATA_SIZE - 2 = 30 := rfl
  have hex : ∀ n, n ≤ 30 →
      checksumLoop s.sensorData n = ((List.range n).map s.sensorData).sum :=
    fun n hn => checksumLoop_exact _ n (by omega) (fun i hi => h i (by omega))
  have hle : checksumLoop s.sensorData 30 ≤ 30 * 255 := by
    rw [hex 30 (Nat.le_refl _)]
    have := sum_le s.sensorData 30 (fun i hi => h i (by omega))
    omega
  rw [hsz]
  refine ⟨hex, hle, fun hbig => ?_, fun hbig => ?_⟩
  · unfold isValidChecksum
    rw [hsz, if_neg (by omega)]
  · cases hv : isValidChecksum e (convertSensorData e s)
    · rfl
    · have hc := (isValidChecksum_convertSensorData e s h).mp hv
      unfold BufChecksumOk at hc
      rw [← hex 30 (Nat.le_refl _)] at hc
      have : checksumLoop s.sensorData 30 % 65536 = checksumLoop s.sensorData 30 :=
        Nat.mod_eq_of_lt (by omega)
      omega

/-- C19 at a concrete input: a frame whose checksum word is 7680. -/
theorem C19_accumulator_never_wraps_witness :
    BufBytes (withFrame blank bigChecksumFrame).sensorData ∧
    30 * 255 < 256 * (withFrame blank bigChecksumFrame).sensorData 30 +
      (withFrame blank bigChecksumFrame).sensorData 31 ∧
    isValidChecksum Endian.little
      (convertSensorData Endian.little (withFrame blank bigChecksumFrame)) = false ∧
    checksumLoop (withFrame blank bigChecksumFrame).sensorData (PMS7003_DATA_SIZE - 2) ≤
      30 * 255 :=
  have w := C19_accumulator_never_wraps Endian.little (withFrame blank bigChecksumFrame)
    (by decide)
  ⟨by decide, by decide, w.2.2.2 (by decide), w.2.1⟩

/-- C20: each of the byte sequences written by `sleep()`, `wakeUp()`, `activeMode()`,
`passiveMode()` and, in PASSIVE mode, `requestRead()` is seven bytes long, starts with
0x42 0x4D and ends with the big-endian sum of its first five bytes. -/
theorem C20_command_frames (s : Plantower_PMS7003) (st : SerialStream) :
    ((sleep s st).2.tx = st.tx ++ [0x42, 0x4D, 0xE4, 0x00, 0x00, 0x01, 0x73] ∧
      WellFormedCommand [0x42, 0x4D, 0xE4, 0x00, 0x00, 0x01, 0x73]) ∧
    ((wakeUp s st).2.tx = st.tx ++ [0x42, 0x4D, 0xE4, 0x00, 0x01, 0x01, 0x74] ∧
      WellFormedCommand [0x42, 0x4D, 0xE4, 0x00, 0x01, 0x01, 0x74]) ∧
    ((activeMode s st).2.tx = st.tx ++ [0x42, 0x4D, 0xE1, 0x00, 0x01, 0x01, 0x71] ∧
      WellFormedCommand [0x42, 0x4D, 0xE1, 0x00, 0x01, 0x01, 0x71]) ∧
    ((passiveMode s st).2.tx = st.tx ++ [0x42, 0x4D, 0xE1, 0x00, 0x00, 0x01, 0x70] ∧
      WellFormedCommand [0x42, 0x4D, 0xE1, 0x00, 0x00, 0x01, 0x70]) ∧
    ((s._mode = Mode.MODE_PASSIVE →
        (requestRead s st).2.tx = st.tx ++ [0x42, 0x4D, 0xE2, 0x00, 0x00, 0x01, 0x71]) ∧
      WellFormedCommand [0x42, 0x4D, 0xE2, 0x00, 0x00, 0x01, 0x71]) := by
  refine ⟨⟨rfl, by decide⟩, ⟨rfl, by decide⟩, ⟨rfl, by decide⟩, ⟨rfl, by decide⟩,
    ⟨fun hm => ?_, by decide⟩⟩
  simp [requestRead, hm, SerialStream.write]

/-- C20 at a concrete input: a driver put in PASSIVE mode, on an empty stream. -/
theorem C20_command_frames_witness :
    (passiveMode (new blank) ⟨[], []⟩).1._mode = Mode.MODE_PASSIVE ∧
    (requestRead (passiveMode (new blank) ⟨[], []⟩).1 ⟨[], []⟩).2.tx =
      [] ++ [0x42, 0x4D, 0xE2, 0x00, 0x00, 0x01, 0x71] ∧
    (sleep (passiveMode (new blank) ⟨[], []⟩).1 ⟨[], []⟩).2.tx =
      [] ++ [0x42, 0x4D, 0xE4, 0x00, 0x00, 0x01, 0x73] :=
  ⟨rfl,
   (C20_command_frames (passiveMode (new blank) ⟨[], []⟩).1 ⟨[], []⟩).2.2.2.2.1 rfl,
   (C20_command_frames (passiveMode (new blank) ⟨[], []⟩).1 ⟨[], []⟩).1.1⟩

end PMS7003
